import Mathlib

/-!
# Open BVM ventilator: settings, derived values and alarm history

A shallow embedding of `Control.cpp`.  The process-wide globals `alarm`, `events`,
`limit`, `ctrl` and `live` become the fields of one `State` record that every operation
takes and returns; the EEPROM contents and the number of `red_led()` calls are part of
that record as well.

Machine integers are natural numbers with the width made explicit: `unsigned` is the
16-bit type of the AVR target (`UINT_MOD`), `unsigned long` the 32-bit one (`ULONG_MOD`),
`int` the 16-bit two's complement type.  An operation that executes a division with a zero
divisor has no defined result and returns `none`.
-/

namespace Control

/-- Number of values of the 16-bit `unsigned` type. -/
def UINT_MOD : Nat := 65536

/-- Number of values of the 32-bit `unsigned long` type. -/
def ULONG_MOD : Nat := 4294967296

/-- Modelled from the spec: `MAX_EVENTS` is defined in a header that is not part of the
sources; the history has capacity 5 (and `alarm_event` shifts the slots 0..4). -/
def MAX_EVENTS : Nat := 5

/-- The parts of the build that `Control.cpp` takes from headers and from the compiler:
the two mechanical constants of `options.h` (integer constants, so that the product
`(unsigned long)ctrl.fullPressVolume * STEPS_PER_REVOLUTION` and the division after it are
`unsigned long` operations), the numeric value of the enumerator `NO_ALARM`, and the
arithmetic of `float`.  `fdiv a b` is the value stored in an `unsigned` field by
`x = a / b` where `a` is an `unsigned long` and `b` a `float` holding the integer `b`:
both operands converted to `float`, divided, and the quotient converted back.  Every
theorem below holds for all values of these four. -/
structure Options where
  END_POSITION : Nat
  STEPS_PER_REVOLUTION : Nat
  NO_ALARM : Nat
  fdiv : Nat → Nat → Nat

/-- Modelled from the spec: `ctrl_t` is declared in `Control.h`; its fields are the
control settings of the data model, each of the `unsigned` type of its setter. -/
structure ctrl_t where
  startPosition : Nat
  fullPressVolume : Nat
  tidalVolume : Nat
  respiratoryRate : Nat
  respiratoryRatio : Nat
  plateauAirwayPressure : Nat
  inspiratoryFlow : Nat
  expiratoryFlow : Nat
  triggerPressure : Nat
  ventilationActive : Bool
deriving DecidableEq, Repr

/-- One side (`minimum` or `maximum`) of the safety limits. -/
structure bounds_t where
  pressure : Nat
  ventilation : Nat
  volume : Nat
deriving DecidableEq, Repr

/-- Modelled from the spec: `limit_t` is declared in `Control.h`; a minimum and a
maximum for pressure, ventilation and volume. -/
structure limit_t where
  minimum : bounds_t
  maximum : bounds_t
deriving DecidableEq, Repr

/-- Modelled from the spec: `live_t` is declared in `Control.h`; the fields are the ones
`Control.cpp` assigns.  `volumePerRevolution` is a local variable of the code, not a
field. -/
structure live_t where
  fullPressSteps : Nat
  tidalSteps : Nat
  steps400 : Nat
  steps600 : Nat
  inspiratoryRpm : Nat
  expiratoryRpm : Nat
  breathCycleTime : Nat
  inspiratoryTime : Nat
  minuteVentilation : Nat
  volume : Nat
  pressure : Nat
  audibleAlarm : Bool
deriving DecidableEq, Repr

/-- Modelled from the spec: `events_t` is declared in `Control.h`; `list` has the five
slots `list[0]`..`list[4]` (newest first) and `length` counts the recorded alarms.  An
alarm code is the integer value of its `alarm_t` enumerator.  The width of `length` is
not known from the sources: it is a natural number here, and `length++` adds one. -/
structure events_t where
  list0 : Nat
  list1 : Nat
  list2 : Nat
  list3 : Nat
  list4 : Nat
  length : Nat
deriving DecidableEq, Repr

/-- The slots `list[0]`..`list[4]` in index order. -/
def events_t.list (e : events_t) : List Nat :=
  [e.list0, e.list1, e.list2, e.list3, e.list4]

/-- Durable storage: the record at offset 0 and the record at offset `sizeof(ctrl_t)`. -/
structure eeprom_t where
  ctrl : ctrl_t
  limit : limit_t
deriving DecidableEq, Repr

/-- The globals of `Control.cpp` that its functions read or write, the EEPROM, and the
number of times `red_led()` has been called. -/
structure State where
  alarm : Nat
  events : events_t
  limit : limit_t
  ctrl : ctrl_t
  live : live_t
  eeprom : eeprom_t
  red_led_calls : Nat
deriving DecidableEq, Repr

/-- What `memset(&live, 0, sizeof(live_t))` leaves. -/
def live_zero : live_t :=
  ⟨0, 0, 0, 0, 0, 0, 0, 0, 0, 0, 0, false⟩

/-- What `memset(&events, 0, sizeof(events_t))` leaves. -/
def events_zero : events_t :=
  ⟨0, 0, 0, 0, 0, 0⟩

/-! ## Recompute functions -/

/-- Source function `tidal_steps`:
`((unsigned long)live.fullPressSteps * volume) / ctrl.fullPressVolume`, returned as
`unsigned`. -/
def tidal_steps (s : State) (volume : Nat) : Option Nat :=
  if s.ctrl.fullPressVolume = 0 then none
  else some ((s.live.fullPressSteps * volume % ULONG_MOD) / s.ctrl.fullPressVolume % UINT_MOD)

/-- Modelled from the spec: `live_tital_steps` is called by `Control.cpp` but defined
outside it; it stores `tidal_steps(ctrl.tidalVolume)` in `live.tidalSteps`. -/
def live_tital_steps (s : State) : Option State :=
  (tidal_steps s s.ctrl.tidalVolume).map fun t => { s with live := { s.live with tidalSteps := t } }

/-- Modelled from the spec: `live_400_steps` is called by `Control.cpp` but defined
outside it; it stores `tidal_steps(400)` in `live.steps400`. -/
def live_400_steps (s : State) : Option State :=
  (tidal_steps s 400).map fun t => { s with live := { s.live with steps400 := t } }

/-- Modelled from the spec: `live_600_steps` is called by `Control.cpp` but defined
outside it; it stores `tidal_steps(600)` in `live.steps600`. -/
def live_600_steps (s : State) : Option State :=
  (tidal_steps s 600).map fun t => { s with live := { s.live with steps600 := t } }

/-- The local `volumePerRevolution` of the code:
`(unsigned long)ctrl.fullPressVolume * STEPS_PER_REVOLUTION / live.fullPressSteps`,
an `unsigned long` quotient (it is then held in a `float`). -/
def volume_per_revolution (P : Options) (s : State) : Option Nat :=
  if s.live.fullPressSteps = 0 then none
  else some ((s.ctrl.fullPressVolume * P.STEPS_PER_REVOLUTION % ULONG_MOD) / s.live.fullPressSteps)

/-- The right-hand side `(unsigned long)flow * 1000 / volumePerRevolution`, stored in an
`unsigned` field. -/
def rpm (P : Options) (flow volumePerRevolution : Nat) : Option Nat :=
  if volumePerRevolution = 0 then none
  else some (P.fdiv (flow * 1000 % ULONG_MOD) volumePerRevolution % UINT_MOD)

/-- Source function `live_volume_per_revolution`. -/
def live_volume_per_revolution (P : Options) (s : State) : Option State := do
  let volumePerRevolution ← volume_per_revolution P s
  let i ← rpm P s.ctrl.inspiratoryFlow volumePerRevolution
  let s1 := { s with live := { s.live with inspiratoryRpm := i } }
  let e ← rpm P s1.ctrl.expiratoryFlow volumePerRevolution
  pure { s1 with live := { s1.live with expiratoryRpm := e } }

/-- Source function `live_breath_cycle_time`: `60000 / ctrl.respiratoryRate`. -/
def live_breath_cycle_time (s : State) : Option State :=
  if s.ctrl.respiratoryRate = 0 then none
  else some { s with live := { s.live with breathCycleTime := 60000 / s.ctrl.respiratoryRate % UINT_MOD } }

/-- Source function `live_inspiratory_time`:
`live.breathCycleTime / (ctrl.respiratoryRatio + 1)`, the sum formed in `unsigned`. -/
def live_inspiratory_time (s : State) : Option State :=
  if (s.ctrl.respiratoryRatio + 1) % UINT_MOD = 0 then none
  else some { s with live := { s.live with
    inspiratoryTime := s.live.breathCycleTime / ((s.ctrl.respiratoryRatio + 1) % UINT_MOD) } }

/-- Source function `live_minute_ventilation`: `ctrl.tidalVolume * ctrl.respiratoryRate`, the product
formed in `unsigned`. -/
def live_minute_ventilation (s : State) : State :=
  { s with live := { s.live with
    minuteVentilation := s.ctrl.tidalVolume * s.ctrl.respiratoryRate % UINT_MOD } }

/-- Source function `live_full_press_steps`: `END_POSITION - ctrl.startPosition` in `unsigned`, then the
four recomputations that read it. -/
def live_full_press_steps (P : Options) (s : State) : Option State := do
  let s0 := { s with live := { s.live with
    fullPressSteps := (((P.END_POSITION : Int) - (s.ctrl.startPosition : Int)) % 65536).toNat } }
  let s1 ← live_tital_steps s0
  let s2 ← live_volume_per_revolution P s1
  let s3 ← live_400_steps s2
  live_600_steps s3

/-! ## Start-up, setters, factory reset -/

/-- Source function `ctrl_setup`. -/
def ctrl_setup (P : Options) (s : State) : Option State := do
  let s0 := { s with alarm := P.NO_ALARM, events := events_zero, live := live_zero }
  let s1 := { s0 with ctrl := s0.eeprom.ctrl }
  let s2 := { s1 with limit := s1.eeprom.limit }
  let s3 ← live_full_press_steps P s2
  let s4 ← live_breath_cycle_time s3
  let s5 ← live_inspiratory_time s4
  let s6 := live_minute_ventilation s5
  pure { s6 with live := { s6.live with
    volume := s6.ctrl.tidalVolume,
    pressure := s6.ctrl.plateauAirwayPressure,
    audibleAlarm := s6.ctrl.ventilationActive } }

/-- Source function `ctrl_start_position`. -/
def ctrl_start_position (P : Options) (s : State) (value : Nat) : Option State := do
  let s0 := { s with ctrl := { s.ctrl with startPosition := value } }
  let s1 ← live_full_press_steps P s0
  let s2 ← live_400_steps s1
  live_600_steps s2

/-- Source function `ctrl_full_press_volume`. -/
def ctrl_full_press_volume (P : Options) (s : State) (value : Nat) : Option State := do
  let s0 := { s with ctrl := { s.ctrl with fullPressVolume := value } }
  let s1 ← live_tital_steps s0
  let s2 ← live_volume_per_revolution P s1
  let s3 ← live_400_steps s2
  live_600_steps s3

/-- Source function `ctrl_tidal_volume`. -/
def ctrl_tidal_volume (s : State) (value : Nat) : Option State := do
  let s0 := { s with ctrl := { s.ctrl with tidalVolume := value } }
  let s1 ← live_tital_steps s0
  pure (live_minute_ventilation s1)

/-- Source function `ctrl_respiratory_rate`. -/
def ctrl_respiratory_rate (s : State) (value : Nat) : Option State := do
  let s0 := { s with ctrl := { s.ctrl with respiratoryRate := value } }
  let s1 ← live_breath_cycle_time s0
  let s2 ← live_inspiratory_time s1
  pure (live_minute_ventilation s2)

/-- Source function `ctrl_respiratory_ratio`. -/
def ctrl_respiratory_ratio (s : State) (value : Nat) : Option State :=
  live_inspiratory_time { s with ctrl := { s.ctrl with respiratoryRatio := value } }

/-- Source function `ctrl_plateau_airway_pressure`. -/
def ctrl_plateau_airway_pressure (s : State) (value : Nat) : Option State :=
  some { s with ctrl := { s.ctrl with plateauAirwayPressure := value } }

/-- Source function `ctrl_inspiratory_flow`. -/
def ctrl_inspiratory_flow (P : Options) (s : State) (value : Nat) : Option State := do
  let s0 := { s with ctrl := { s.ctrl with inspiratoryFlow := value } }
  let volumePerRevolution ← volume_per_revolution P s0
  let i ← rpm P s0.ctrl.inspiratoryFlow volumePerRevolution
  pure { s0 with live := { s0.live with inspiratoryRpm := i } }

/-- Source function `ctrl_expiratory_flow`. -/
def ctrl_expiratory_flow (P : Options) (s : State) (value : Nat) : Option State := do
  let s0 := { s with ctrl := { s.ctrl with expiratoryFlow := value } }
  let volumePerRevolution ← volume_per_revolution P s0
  let e ← rpm P s0.ctrl.expiratoryFlow volumePerRevolution
  pure { s0 with live := { s0.live with expiratoryRpm := e } }

/-- Source function `ctrl_pressure_trigger`. -/
def ctrl_pressure_trigger (s : State) (value : Nat) : Option State :=
  some { s with ctrl := { s.ctrl with triggerPressure := value } }

/-- The settings `factory_reset` assigns. -/
def factory_ctrl : ctrl_t :=
  { startPosition := 500, fullPressVolume := 850, tidalVolume := 450, respiratoryRate := 12,
    respiratoryRatio := 3, plateauAirwayPressure := 300, inspiratoryFlow := 35,
    expiratoryFlow := 35, triggerPressure := 50, ventilationActive := false }

/-- The limits `factory_reset` assigns. -/
def factory_limit : limit_t :=
  { minimum := { pressure := 50, ventilation := 3000, volume := 180 },
    maximum := { pressure := 400, ventilation := 8000, volume := 750 } }

/-- Source function `factory_reset`. -/
def factory_reset (P : Options) (s : State) : Option State := do
  let s0 := { s with ctrl := factory_ctrl, limit := factory_limit }
  let s1 ← live_full_press_steps P s0
  let s2 ← live_breath_cycle_time s1
  let s3 ← live_inspiratory_time s2
  let s4 := live_minute_ventilation s3
  let s5 := { s4 with live := { s4.live with
    volume := s4.ctrl.tidalVolume, pressure := s4.ctrl.plateauAirwayPressure } }
  let s6 := { s5 with eeprom := { s5.eeprom with ctrl := s5.ctrl } }
  pure { s6 with eeprom := { s6.eeprom with limit := s6.limit } }

/-! ## Input clamp and alarm history -/

/-- Reduction of an integer to the 16-bit two's complement range of `int`. -/
def wrap_int (x : Int) : Int :=
  (x + 32768) % 65536 - 32768

/-- Source function `clamp_input_value`; `value += step` and `value -= step` are `int`
operations, reduced to the 16-bit range. -/
def clamp_input_value (value step dir lo hi : Int) : Int :=
  let value := if dir > 0 then wrap_int (value + step) else wrap_int (value - step)
  let value := if value < lo then lo else value
  let value := if value > hi then hi else value
  value

/-- Source function `alarm_event`. -/
def alarm_event (s : State) (a : Nat) : State :=
  let s :=
    if s.alarm ≠ a then
      let s := { s with alarm := a }
      let s := { s with events := { s.events with list4 := s.events.list3 } }
      let s := { s with events := { s.events with list3 := s.events.list2 } }
      let s := { s with events := { s.events with list2 := s.events.list1 } }
      let s := { s with events := { s.events with list1 := s.events.list0 } }
      let s := { s with events := { s.events with list0 := s.alarm } }
      let s := { s with events := { s.events with length := s.events.length + 1 } }
      if s.events.length > MAX_EVENTS then
        { s with events := { s.events with length := MAX_EVENTS } }
      else s
    else s
  { s with red_led_calls := s.red_led_calls + 1 }

/-! ## A concrete build -/

/-- Nearest integer to `n / d`, ties to the even one. -/
def round_nearest_even (n d : Nat) : Nat :=
  let q := n / d
  let r := n % d
  if 2 * r < d then q else if d < 2 * r then q + 1 else if q % 2 = 0 then q else q + 1

/-- Index of the highest set bit of `n` (0 for `n < 2`), by at most `fuel` halvings. -/
def high_bit : Nat → Nat → Nat
  | 0, _ => 0
  | fuel + 1, n => if n < 2 then 0 else high_bit fuel (n / 2) + 1

/-- Integer part of the binary32 number nearest to `n / d` (24-bit significand, round to
nearest, ties to even), for `d > 0`. -/
def f32_div_trunc (n d : Nat) : Nat :=
  if n < d then (if d * (2 ^ 25 - 1) ≤ n * 2 ^ 25 then 1 else 0)
  else
    let k := high_bit (n / d) (n / d)
    if 23 ≤ k then round_nearest_even n (d * 2 ^ (k - 23)) * 2 ^ (k - 23)
    else round_nearest_even (n * 2 ^ (23 - k)) d / 2 ^ (23 - k)

/-- The binary32 number nearest to the integer `n` (itself an integer). -/
def f32_of_nat (n : Nat) : Nat :=
  f32_div_trunc n 1

/-- A build used to evaluate the model: 1500 steps of travel, 200 steps per revolution,
`NO_ALARM` the first enumerator, binary32 `float`. -/
def avr_build : Options :=
  { END_POSITION := 1500, STEPS_PER_REVOLUTION := 200, NO_ALARM := 0,
    fdiv := fun a b => f32_div_trunc (f32_of_nat a) (f32_of_nat b) }

/-- A power-on state: nothing stored, nothing computed. -/
def blank_state : State :=
  { alarm := 0, events := events_zero,
    limit := ⟨⟨0, 0, 0⟩, ⟨0, 0, 0⟩⟩,
    ctrl := ⟨0, 0, 0, 0, 0, 0, 0, 0, 0, false⟩,
    live := live_zero,
    eeprom := ⟨⟨0, 0, 0, 0, 0, 0, 0, 0, 0, false⟩, ⟨⟨0, 0, 0⟩, ⟨0, 0, 0⟩⟩⟩,
    red_led_calls := 0 }

/-! ## The nine setters as one operation, and reachability -/

/-- The nine setters of `Control.cpp`. -/
inductive setter_t where
  | start_position
  | full_press_volume
  | tidal_volume
  | respiratory_rate
  | respiratory_ratio
  | plateau_airway_pressure
  | inspiratory_flow
  | expiratory_flow
  | pressure_trigger
deriving DecidableEq, Repr

/-- Call of the setter `k` with argument `value`. -/
def call (P : Options) (k : setter_t) (s : State) (value : Nat) : Option State :=
  match k with
  | .start_position => ctrl_start_position P s value
  | .full_press_volume => ctrl_full_press_volume P s value
  | .tidal_volume => ctrl_tidal_volume s value
  | .respiratory_rate => ctrl_respiratory_rate s value
  | .respiratory_ratio => ctrl_respiratory_ratio s value
  | .plateau_airway_pressure => ctrl_plateau_airway_pressure s value
  | .inspiratory_flow => ctrl_inspiratory_flow P s value
  | .expiratory_flow => ctrl_expiratory_flow P s value
  | .pressure_trigger => ctrl_pressure_trigger s value

/-- States reached from `ctrl_setup` or `factory_reset` by setter calls, none of which
divides by zero. -/
inductive Reachable (P : Options) : State → Prop where
  | setup (pre s : State) : ctrl_setup P pre = some s → Reachable P s
  | reset (pre s : State) : factory_reset P pre = some s → Reachable P s
  | step (k : setter_t) (value : Nat) (s s' : State) :
      Reachable P s → call P k s value = some s' → Reachable P s'

/-! ## The formulas of the derivation engine, on the settings alone

Second definitions, following the dependency graph of the specification: each derived
value as a function of `ctrl_t` (and the build), in the arithmetic of the target. -/

/-- Formula `fullPressSteps = END_POSITION − startPosition`. -/
def full_press_steps_of (P : Options) (c : ctrl_t) : Nat :=
  (((P.END_POSITION : Int) - (c.startPosition : Int)) % 65536).toNat

/-- Formula `tidalSteps(volume) = fullPressSteps × volume ÷ fullPressVolume`. -/
def tidal_steps_of (P : Options) (c : ctrl_t) (volume : Nat) : Nat :=
  (full_press_steps_of P c * volume % ULONG_MOD) / c.fullPressVolume % UINT_MOD

/-- Formula `volumePerRevolution = fullPressVolume × STEPS_PER_REVOLUTION ÷ fullPressSteps`. -/
def volume_per_revolution_of (P : Options) (c : ctrl_t) : Nat :=
  (c.fullPressVolume * P.STEPS_PER_REVOLUTION % ULONG_MOD) / full_press_steps_of P c

/-- Formula `rpm = flow × 1000 ÷ volumePerRevolution`. -/
def rpm_of (P : Options) (c : ctrl_t) (flow : Nat) : Nat :=
  P.fdiv (flow * 1000 % ULONG_MOD) (volume_per_revolution_of P c) % UINT_MOD

/-- Formula `breathCycleTime = 60000 ÷ respiratoryRate`. -/
def breath_cycle_time_of (c : ctrl_t) : Nat :=
  60000 / c.respiratoryRate % UINT_MOD

/-- Formula `inspiratoryTime = breathCycleTime ÷ (respiratoryRatio + 1)`. -/
def inspiratory_time_of (c : ctrl_t) : Nat :=
  breath_cycle_time_of c / ((c.respiratoryRatio + 1) % UINT_MOD)

/-- Formula `minuteVentilation = tidalVolume × respiratoryRate`. -/
def minute_ventilation_of (c : ctrl_t) : Nat :=
  c.tidalVolume * c.respiratoryRate % UINT_MOD

/-- Every derived field of `live` equals its formula on the current `ctrl`. -/
def Consistent (P : Options) (s : State) : Prop :=
  s.live.fullPressSteps = full_press_steps_of P s.ctrl ∧
  s.live.tidalSteps = tidal_steps_of P s.ctrl s.ctrl.tidalVolume ∧
  s.live.steps400 = tidal_steps_of P s.ctrl 400 ∧
  s.live.steps600 = tidal_steps_of P s.ctrl 600 ∧
  s.live.inspiratoryRpm = rpm_of P s.ctrl s.ctrl.inspiratoryFlow ∧
  s.live.expiratoryRpm = rpm_of P s.ctrl s.ctrl.expiratoryFlow ∧
  s.live.breathCycleTime = breath_cycle_time_of s.ctrl ∧
  s.live.inspiratoryTime = inspiratory_time_of s.ctrl ∧
  s.live.minuteVentilation = minute_ventilation_of s.ctrl

/-- The documented preconditions, on the settings `c` and the value of
`live.fullPressSteps` an operation computes with: `respiratoryRate ≠ 0`,
`fullPressVolume ≠ 0`, `fullPressSteps ≠ 0`, `volumePerRevolution ≠ 0`. -/
def divisors_ok (P : Options) (c : ctrl_t) (fullPressSteps : Nat) : Prop :=
  c.respiratoryRate ≠ 0 ∧ c.fullPressVolume ≠ 0 ∧ fullPressSteps ≠ 0 ∧
  (c.fullPressVolume * P.STEPS_PER_REVOLUTION % ULONG_MOD) / fullPressSteps ≠ 0

instance (P : Options) (c : ctrl_t) (n : Nat) : Decidable (divisors_ok P c n) := by
  unfold divisors_ok
  infer_instance

/-- The settings after the assignment a setter starts with. -/
def stored (k : setter_t) (c : ctrl_t) (value : Nat) : ctrl_t :=
  match k with
  | .start_position => { c with startPosition := value }
  | .full_press_volume => { c with fullPressVolume := value }
  | .tidal_volume => { c with tidalVolume := value }
  | .respiratory_rate => { c with respiratoryRate := value }
  | .respiratory_ratio => { c with respiratoryRatio := value }
  | .plateau_airway_pressure => { c with plateauAirwayPressure := value }
  | .inspiratory_flow => { c with inspiratoryFlow := value }
  | .expiratory_flow => { c with expiratoryFlow := value }
  | .pressure_trigger => { c with triggerPressure := value }

/-- The value of `live.fullPressSteps` the setter `k` computes with: `ctrl_start_position`
recomputes it from the stored settings, every other setter reads the current one. -/
def steps_used (P : Options) (k : setter_t) (s : State) (value : Nat) : Nat :=
  match k with
  | .start_position => full_press_steps_of P (stored k s.ctrl value)
  | _ => s.live.fullPressSteps

/-- The state `factory_reset` leaves on the build `avr_build`. -/
def factory_state : State :=
  { alarm := 0, events := events_zero,
    limit := factory_limit, ctrl := factory_ctrl,
    live := { fullPressSteps := 1000, tidalSteps := 529, steps400 := 470, steps600 := 705,
              inspiratoryRpm := 205, expiratoryRpm := 205, breathCycleTime := 5000,
              inspiratoryTime := 1250, minuteVentilation := 5400, volume := 450,
              pressure := 300, audibleAlarm := false },
    eeprom := { ctrl := factory_ctrl, limit := factory_limit },
    red_led_calls := 0 }

/-- The state after `ctrl_tidal_volume(500)` in `factory_state`. -/
def tuned_state : State :=
  { factory_state with
    ctrl := { factory_ctrl with tidalVolume := 500 },
    live := { factory_state.live with tidalSteps := 588, minuteVentilation := 6000 } }

/-- The calls `alarm_event(c1)`, ..., `alarm_event(cN)` in order. -/
def raise_all (s : State) (codes : List Nat) : State :=
  codes.foldl alarm_event s

/-- A state with an active alarm: code 3 raised after a factory reset. -/
def alarmed_state : State :=
  alarm_event factory_state 3

/-- Every code of the list differs from the one before it, the one before the first
being `previous`. -/
def each_differs (previous : Nat) : List Nat → Bool
  | [] => true
  | c :: cs => c != previous && each_differs c cs

instance (P : Options) (s : State) : Decidable (Consistent P s) := by
  unfold Consistent
  infer_instance

/-- States reached from `ctrl_setup` by calls of `alarm_event`, of the setters and of
`factory_reset`, in any order. -/
inductive AlarmReachable (P : Options) : State → Prop where
  | setup (pre s : State) : ctrl_setup P pre = some s → AlarmReachable P s
  | raise (a : Nat) (s : State) : AlarmReachable P s → AlarmReachable P (alarm_event s a)
  | set (k : setter_t) (value : Nat) (s s' : State) :
      AlarmReachable P s → call P k s value = some s' → AlarmReachable P s'
  | reset (s s' : State) :
      AlarmReachable P s → factory_reset P s = some s' → AlarmReachable P s'

/-! ## What each recompute function returns -/

theorem tidal_steps_some {s : State} {volume t : Nat} (h : tidal_steps s volume = some t) :
    s.ctrl.fullPressVolume ≠ 0 ∧
    t = (s.live.fullPressSteps * volume % ULONG_MOD) / s.ctrl.fullPressVolume % UINT_MOD := by
  unfold tidal_steps at h
  split at h
  · cases h
  · exact ⟨by assumption, (Option.some.inj h).symm⟩

theorem live_tital_steps_some {s s' : State} (h : live_tital_steps s = some s') :
    ∃ t, tidal_steps s s.ctrl.tidalVolume = some t ∧
      s' = { s with live := { s.live with tidalSteps := t } } := by
  unfold live_tital_steps at h
  rcases Option.map_eq_some'.mp h with ⟨t, ht, rfl⟩
  exact ⟨t, ht, rfl⟩

theorem live_400_steps_some {s s' : State} (h : live_400_steps s = some s') :
    ∃ t, tidal_steps s 400 = some t ∧
      s' = { s with live := { s.live with steps400 := t } } := by
  unfold live_400_steps at h
  rcases Option.map_eq_some'.mp h with ⟨t, ht, rfl⟩
  exact ⟨t, ht, rfl⟩

theorem live_600_steps_some {s s' : State} (h : live_600_steps s = some s') :
    ∃ t, tidal_steps s 600 = some t ∧
      s' = { s with live := { s.live with steps600 := t } } := by
  unfold live_600_steps at h
  rcases Option.map_eq_some'.mp h with ⟨t, ht, rfl⟩
  exact ⟨t, ht, rfl⟩

theorem volume_per_revolution_some {P : Options} {s : State} {v : Nat}
    (h : volume_per_revolution P s = some v) :
    s.live.fullPressSteps ≠ 0 ∧
    v = (s.ctrl.fullPressVolume * P.STEPS_PER_REVOLUTION % ULONG_MOD) / s.live.fullPressSteps := by
  unfold volume_per_revolution at h
  split at h
  · cases h
  · exact ⟨by assumption, (Option.some.inj h).symm⟩

theorem rpm_some {P : Options} {flow v r : Nat} (h : rpm P flow v = some r) :
    v ≠ 0 ∧ r = P.fdiv (flow * 1000 % ULONG_MOD) v % UINT_MOD := by
  unfold rpm at h
  split at h
  · cases h
  · exact ⟨by assumption, (Option.some.inj h).symm⟩

theorem live_volume_per_revolution_some {P : Options} {s s' : State}
    (h : live_volume_per_revolution P s = some s') :
    ∃ v, volume_per_revolution P s = some v ∧ v ≠ 0 ∧
      s' = { s with live := { s.live with
        inspiratoryRpm := P.fdiv (s.ctrl.inspiratoryFlow * 1000 % ULONG_MOD) v % UINT_MOD,
        expiratoryRpm := P.fdiv (s.ctrl.expiratoryFlow * 1000 % ULONG_MOD) v % UINT_MOD } } := by
  unfold live_volume_per_revolution at h
  rcases Option.bind_eq_some.mp h with ⟨v, hv, h1⟩
  rcases Option.bind_eq_some.mp h1 with ⟨i, hi, h2⟩
  rcases Option.bind_eq_some.mp h2 with ⟨e, he, h3⟩
  obtain ⟨hv0, rfl⟩ := rpm_some hi
  obtain ⟨-, rfl⟩ := rpm_some he
  exact ⟨v, hv, hv0, (Option.some.inj h3).symm⟩

theorem live_breath_cycle_time_some {s s' : State} (h : live_breath_cycle_time s = some s') :
    s.ctrl.respiratoryRate ≠ 0 ∧
    s' = { s with live := { s.live with
      breathCycleTime := 60000 / s.ctrl.respiratoryRate % UINT_MOD } } := by
  unfold live_breath_cycle_time at h
  split at h
  · cases h
  · exact ⟨by assumption, (Option.some.inj h).symm⟩

theorem live_inspiratory_time_some {s s' : State} (h : live_inspiratory_time s = some s') :
    (s.ctrl.respiratoryRatio + 1) % UINT_MOD ≠ 0 ∧
    s' = { s with live := { s.live with
      inspiratoryTime := s.live.breathCycleTime / ((s.ctrl.respiratoryRatio + 1) % UINT_MOD) } } := by
  unfold live_inspiratory_time at h
  split at h
  · cases h
  · exact ⟨by assumption, (Option.some.inj h).symm⟩

theorem live_full_press_steps_some {P : Options} {s s' : State}
    (h : live_full_press_steps P s = some s') :
    s.ctrl.fullPressVolume ≠ 0 ∧ full_press_steps_of P s.ctrl ≠ 0 ∧
    volume_per_revolution_of P s.ctrl ≠ 0 ∧
    s' = { s with live := { s.live with
      fullPressSteps := full_press_steps_of P s.ctrl,
      tidalSteps := tidal_steps_of P s.ctrl s.ctrl.tidalVolume,
      steps400 := tidal_steps_of P s.ctrl 400,
      steps600 := tidal_steps_of P s.ctrl 600,
      inspiratoryRpm := rpm_of P s.ctrl s.ctrl.inspiratoryFlow,
      expiratoryRpm := rpm_of P s.ctrl s.ctrl.expiratoryFlow } } := by
  unfold live_full_press_steps at h
  rcases Option.bind_eq_some.mp h with ⟨s1, h1, h⟩
  rcases Option.bind_eq_some.mp h with ⟨s2, h2, h⟩
  rcases Option.bind_eq_some.mp h with ⟨s3, h3, h4⟩
  obtain ⟨t1, ht1, rfl⟩ := live_tital_steps_some h1
  obtain ⟨v, hv, hv0, rfl⟩ := live_volume_per_revolution_some h2
  obtain ⟨t3, ht3, rfl⟩ := live_400_steps_some h3
  obtain ⟨t4, ht4, rfl⟩ := live_600_steps_some h4
  obtain ⟨hf, rfl⟩ := tidal_steps_some ht1
  obtain ⟨-, rfl⟩ := tidal_steps_some ht3
  obtain ⟨-, rfl⟩ := tidal_steps_some ht4
  obtain ⟨hs, rfl⟩ := volume_per_revolution_some hv
  exact ⟨hf, hs, hv0, rfl⟩

/-! ## What each setter, `ctrl_setup` and `factory_reset` return -/

theorem ctrl_start_position_some {P : Options} {s s' : State} {value : Nat}
    (h : ctrl_start_position P s value = some s') :
    s' = { s with
      ctrl := { s.ctrl with startPosition := value },
      live := { s.live with
        fullPressSteps := full_press_steps_of P { s.ctrl with startPosition := value },
        tidalSteps := tidal_steps_of P { s.ctrl with startPosition := value } s.ctrl.tidalVolume,
        steps400 := tidal_steps_of P { s.ctrl with startPosition := value } 400,
        steps600 := tidal_steps_of P { s.ctrl with startPosition := value } 600,
        inspiratoryRpm := rpm_of P { s.ctrl with startPosition := value } s.ctrl.inspiratoryFlow,
        expiratoryRpm := rpm_of P { s.ctrl with startPosition := value } s.ctrl.expiratoryFlow } } := by
  unfold ctrl_start_position at h
  rcases Option.bind_eq_some.mp h with ⟨s1, h1, h⟩
  rcases Option.bind_eq_some.mp h with ⟨s2, h2, h3⟩
  obtain ⟨-, -, -, rfl⟩ := live_full_press_steps_some h1
  obtain ⟨t2, ht2, rfl⟩ := live_400_steps_some h2
  obtain ⟨t3, ht3, rfl⟩ := live_600_steps_some h3
  obtain ⟨-, rfl⟩ := tidal_steps_some ht2
  obtain ⟨-, rfl⟩ := tidal_steps_some ht3
  rfl

theorem ctrl_full_press_volume_some {P : Options} {s s' : State} {value : Nat}
    (h : ctrl_full_press_volume P s value = some s') :
    s' = { s with
      ctrl := { s.ctrl with fullPressVolume := value },
      live := { s.live with
        tidalSteps := (s.live.fullPressSteps * s.ctrl.tidalVolume % ULONG_MOD) / value % UINT_MOD,
        steps400 := (s.live.fullPressSteps * 400 % ULONG_MOD) / value % UINT_MOD,
        steps600 := (s.live.fullPressSteps * 600 % ULONG_MOD) / value % UINT_MOD,
        inspiratoryRpm := P.fdiv (s.ctrl.inspiratoryFlow * 1000 % ULONG_MOD)
          ((value * P.STEPS_PER_REVOLUTION % ULONG_MOD) / s.live.fullPressSteps) % UINT_MOD,
        expiratoryRpm := P.fdiv (s.ctrl.expiratoryFlow * 1000 % ULONG_MOD)
          ((value * P.STEPS_PER_REVOLUTION % ULONG_MOD) / s.live.fullPressSteps) % UINT_MOD } } := by
  unfold ctrl_full_press_volume at h
  rcases Option.bind_eq_some.mp h with ⟨s1, h1, h⟩
  rcases Option.bind_eq_some.mp h with ⟨s2, h2, h⟩
  rcases Option.bind_eq_some.mp h with ⟨s3, h3, h4⟩
  obtain ⟨t1, ht1, rfl⟩ := live_tital_steps_some h1
  obtain ⟨v, hv, -, rfl⟩ := live_volume_per_revolution_some h2
  obtain ⟨t3, ht3, rfl⟩ := live_400_steps_some h3
  obtain ⟨t4, ht4, rfl⟩ := live_600_steps_some h4
  obtain ⟨-, rfl⟩ := tidal_steps_some ht1
  obtain ⟨-, rfl⟩ := tidal_steps_some ht3
  obtain ⟨-, rfl⟩ := tidal_steps_some ht4
  obtain ⟨-, rfl⟩ := volume_per_revolution_some hv
  rfl

theorem ctrl_tidal_volume_some {s s' : State} {value : Nat}
    (h : ctrl_tidal_volume s value = some s') :
    s' = { s with
      ctrl := { s.ctrl with tidalVolume := value },
      live := { s.live with
        tidalSteps := (s.live.fullPressSteps * value % ULONG_MOD) / s.ctrl.fullPressVolume % UINT_MOD,
        minuteVentilation := value * s.ctrl.respiratoryRate % UINT_MOD } } := by
  unfold ctrl_tidal_volume at h
  rcases Option.bind_eq_some.mp h with ⟨s1, h1, h2⟩
  obtain ⟨t1, ht1, rfl⟩ := live_tital_steps_some h1
  obtain ⟨-, rfl⟩ := tidal_steps_some ht1
  exact (Option.some.inj h2).symm

theorem ctrl_respiratory_rate_some {s s' : State} {value : Nat}
    (h : ctrl_respiratory_rate s value = some s') :
    s' = { s with
      ctrl := { s.ctrl with respiratoryRate := value },
      live := { s.live with
        breathCycleTime := 60000 / value % UINT_MOD,
        inspiratoryTime := (60000 / value % UINT_MOD) / ((s.ctrl.respiratoryRatio + 1) % UINT_MOD),
        minuteVentilation := s.ctrl.tidalVolume * value % UINT_MOD } } := by
  unfold ctrl_respiratory_rate at h
  rcases Option.bind_eq_some.mp h with ⟨s1, h1, h⟩
  rcases Option.bind_eq_some.mp h with ⟨s2, h2, h3⟩
  obtain ⟨-, rfl⟩ := live_breath_cycle_time_some h1
  obtain ⟨-, rfl⟩ := live_inspiratory_time_some h2
  exact (Option.some.inj h3).symm

theorem ctrl_respiratory_ratio_some {s s' : State} {value : Nat}
    (h : ctrl_respiratory_ratio s value = some s') :
    s' = { s with
      ctrl := { s.ctrl with respiratoryRatio := value },
      live := { s.live with
        inspiratoryTime := s.live.breathCycleTime / ((value + 1) % UINT_MOD) } } := by
  unfold ctrl_respiratory_ratio at h
  obtain ⟨-, rfl⟩ := live_inspiratory_time_some h
  rfl

theorem ctrl_inspiratory_flow_some {P : Options} {s s' : State} {value : Nat}
    (h : ctrl_inspiratory_flow P s value = some s') :
    s' = { s with
      ctrl := { s.ctrl with inspiratoryFlow := value },
      live := { s.live with
        inspiratoryRpm := P.fdiv (value * 1000 % ULONG_MOD)
          ((s.ctrl.fullPressVolume * P.STEPS_PER_REVOLUTION % ULONG_MOD) / s.live.fullPressSteps)
            % UINT_MOD } } := by
  unfold ctrl_inspiratory_flow at h
  rcases Option.bind_eq_some.mp h with ⟨v, hv, h⟩
  rcases Option.bind_eq_some.mp h with ⟨i, hi, h3⟩
  obtain ⟨-, rfl⟩ := volume_per_revolution_some hv
  obtain ⟨-, rfl⟩ := rpm_some hi
  exact (Option.some.inj h3).symm

theorem ctrl_expiratory_flow_some {P : Options} {s s' : State} {value : Nat}
    (h : ctrl_expiratory_flow P s value = some s') :
    s' = { s with
      ctrl := { s.ctrl with expiratoryFlow := value },
      live := { s.live with
        expiratoryRpm := P.fdiv (value * 1000 % ULONG_MOD)
          ((s.ctrl.fullPressVolume * P.STEPS_PER_REVOLUTION % ULONG_MOD) / s.live.fullPressSteps)
            % UINT_MOD } } := by
  unfold ctrl_expiratory_flow at h
  rcases Option.bind_eq_some.mp h with ⟨v, hv, h⟩
  rcases Option.bind_eq_some.mp h with ⟨i, hi, h3⟩
  obtain ⟨-, rfl⟩ := volume_per_revolution_some hv
  obtain ⟨-, rfl⟩ := rpm_some hi
  exact (Option.some.inj h3).symm

theorem ctrl_setup_some {P : Options} {s s' : State} (h : ctrl_setup P s = some s') :
    s' = { s with
      alarm := P.NO_ALARM,
      events := events_zero,
      ctrl := s.eeprom.ctrl,
      limit := s.eeprom.limit,
      live := {
        fullPressSteps := full_press_steps_of P s.eeprom.ctrl,
        tidalSteps := tidal_steps_of P s.eeprom.ctrl s.eeprom.ctrl.tidalVolume,
        steps400 := tidal_steps_of P s.eeprom.ctrl 400,
        steps600 := tidal_steps_of P s.eeprom.ctrl 600,
        inspiratoryRpm := rpm_of P s.eeprom.ctrl s.eeprom.ctrl.inspiratoryFlow,
        expiratoryRpm := rpm_of P s.eeprom.ctrl s.eeprom.ctrl.expiratoryFlow,
        breathCycleTime := breath_cycle_time_of s.eeprom.ctrl,
        inspiratoryTime := inspiratory_time_of s.eeprom.ctrl,
        minuteVentilation := minute_ventilation_of s.eeprom.ctrl,
        volume := s.eeprom.ctrl.tidalVolume,
        pressure := s.eeprom.ctrl.plateauAirwayPressure,
        audibleAlarm := s.eeprom.ctrl.ventilationActive } } := by
  unfold ctrl_setup at h
  rcases Option.bind_eq_some.mp h with ⟨s3, h3, h⟩
  rcases Option.bind_eq_some.mp h with ⟨s4, h4, h⟩
  rcases Option.bind_eq_some.mp h with ⟨s5, h5, h6⟩
  obtain ⟨-, -, -, rfl⟩ := live_full_press_steps_some h3
  obtain ⟨-, rfl⟩ := live_breath_cycle_time_some h4
  obtain ⟨-, rfl⟩ := live_inspiratory_time_some h5
  exact (Option.some.inj h6).symm

theorem factory_reset_some {P : Options} {s s' : State} (h : factory_reset P s = some s') :
    s' = { s with
      ctrl := factory_ctrl,
      limit := factory_limit,
      live := { s.live with
        fullPressSteps := full_press_steps_of P factory_ctrl,
        tidalSteps := tidal_steps_of P factory_ctrl 450,
        steps400 := tidal_steps_of P factory_ctrl 400,
        steps600 := tidal_steps_of P factory_ctrl 600,
        inspiratoryRpm := rpm_of P factory_ctrl 35,
        expiratoryRpm := rpm_of P factory_ctrl 35,
        breathCycleTime := breath_cycle_time_of factory_ctrl,
        inspiratoryTime := inspiratory_time_of factory_ctrl,
        minuteVentilation := minute_ventilation_of factory_ctrl,
        volume := 450,
        pressure := 300 },
      eeprom := { ctrl := factory_ctrl, limit := factory_limit } } := by
  unfold factory_reset at h
  rcases Option.bind_eq_some.mp h with ⟨s1, h1, h⟩
  rcases Option.bind_eq_some.mp h with ⟨s2, h2, h⟩
  rcases Option.bind_eq_some.mp h with ⟨s3, h3, h4⟩
  obtain ⟨-, -, -, rfl⟩ := live_full_press_steps_some h1
  obtain ⟨-, rfl⟩ := live_breath_cycle_time_some h2
  obtain ⟨-, rfl⟩ := live_inspiratory_time_some h3
  exact (Option.some.inj h4).symm

theorem factory_times :
    breath_cycle_time_of factory_ctrl = 5000 ∧ inspiratory_time_of factory_ctrl = 1250 ∧
    minute_ventilation_of factory_ctrl = 5400 := by
  decide

theorem call_stores {P : Options} {k : setter_t} {s s' : State} {value : Nat}
    (h : call P k s value = some s') : s'.ctrl = stored k s.ctrl value := by
  cases k <;> simp only [call] at h
  · rw [ctrl_start_position_some h]
    rfl
  · rw [ctrl_full_press_volume_some h]
    rfl
  · rw [ctrl_tidal_volume_some h]
    rfl
  · rw [ctrl_respiratory_rate_some h]
    rfl
  · rw [ctrl_respiratory_ratio_some h]
    rfl
  · cases h
    rfl
  · rw [ctrl_inspiratory_flow_some h]
    rfl
  · rw [ctrl_expiratory_flow_some h]
    rfl
  · cases h
    rfl

/-! ## Success under the preconditions -/

theorem live_full_press_steps_defined (P : Options) (s : State)
    (hv : s.ctrl.fullPressVolume ≠ 0) (hs : full_press_steps_of P s.ctrl ≠ 0)
    (hr : volume_per_revolution_of P s.ctrl ≠ 0) :
    (live_full_press_steps P s).isSome = true := by
  unfold volume_per_revolution_of at hr
  unfold full_press_steps_of at hs hr
  simp [live_full_press_steps, live_tital_steps, tidal_steps, live_volume_per_revolution,
    volume_per_revolution, rpm, live_400_steps, live_600_steps, hv, hs, hr]

/-! ## Consistency is preserved -/

theorem call_consistent {P : Options} {k : setter_t} {s s' : State} {value : Nat}
    (h : call P k s value = some s') (hc : Consistent P s) : Consistent P s' := by
  obtain ⟨h1, h2, h3, h4, h5, h6, h7, h8, h9⟩ := hc
  cases k <;> simp only [call] at h
  · rw [ctrl_start_position_some h]
    exact ⟨rfl, rfl, rfl, rfl, rfl, rfl, h7, h8, h9⟩
  · rw [ctrl_full_press_volume_some h]
    simp only [Consistent, tidal_steps_of, rpm_of, volume_per_revolution_of, full_press_steps_of,
      breath_cycle_time_of, inspiratory_time_of, minute_ventilation_of] at *
    simp only [h1, h7, h8, h9, and_self]
  · rw [ctrl_tidal_volume_some h]
    simp only [Consistent, tidal_steps_of, rpm_of, volume_per_revolution_of, full_press_steps_of,
      breath_cycle_time_of, inspiratory_time_of, minute_ventilation_of] at *
    simp only [h1, h3, h4, h5, h6, h7, h8, and_self]
  · rw [ctrl_respiratory_rate_some h]
    simp only [Consistent, tidal_steps_of, rpm_of, volume_per_revolution_of, full_press_steps_of,
      breath_cycle_time_of, inspiratory_time_of, minute_ventilation_of] at *
    simp only [h1, h2, h3, h4, h5, h6, and_self]
  · rw [ctrl_respiratory_ratio_some h]
    simp only [Consistent, tidal_steps_of, rpm_of, volume_per_revolution_of, full_press_steps_of,
      breath_cycle_time_of, inspiratory_time_of, minute_ventilation_of] at *
    simp only [h1, h2, h3, h4, h5, h6, h7, h9, and_self]
  · cases h
    exact ⟨h1, h2, h3, h4, h5, h6, h7, h8, h9⟩
  · rw [ctrl_inspiratory_flow_some h]
    simp only [Consistent, tidal_steps_of, rpm_of, volume_per_revolution_of, full_press_steps_of,
      breath_cycle_time_of, inspiratory_time_of, minute_ventilation_of] at *
    simp only [h1, h2, h3, h4, h6, h7, h8, h9, and_self]
  · rw [ctrl_expiratory_flow_some h]
    simp only [Consistent, tidal_steps_of, rpm_of, volume_per_revolution_of, full_press_steps_of,
      breath_cycle_time_of, inspiratory_time_of, minute_ventilation_of] at *
    simp only [h1, h2, h3, h4, h5, h7, h8, h9, and_self]
  · cases h
    exact ⟨h1, h2, h3, h4, h5, h6, h7, h8, h9⟩

theorem factory_state_reset : factory_reset avr_build blank_state = some factory_state := by
  decide

theorem tuned_state_call : call avr_build .tidal_volume factory_state 500 = some tuned_state := by
  decide

theorem tuned_state_reachable : Reachable avr_build tuned_state :=
  .step .tidal_volume 500 factory_state tuned_state
    (.reset blank_state factory_state factory_state_reset) tuned_state_call

/-! ## Pure-function consistency -/

/-- C1. In every state reached from `ctrl_setup` or `factory_reset` by any sequence of the
nine setters, none of which divides by zero, each derived field of `live` equals the
formula of the derivation engine evaluated (in the arithmetic of the target) on the
current settings: no derived value is stale. -/
theorem reachable_consistent (P : Options) (s : State) (h : Reachable P s) :
    s.live.fullPressSteps = full_press_steps_of P s.ctrl ∧
    s.live.tidalSteps = tidal_steps_of P s.ctrl s.ctrl.tidalVolume ∧
    s.live.steps400 = tidal_steps_of P s.ctrl 400 ∧
    s.live.steps600 = tidal_steps_of P s.ctrl 600 ∧
    s.live.inspiratoryRpm = rpm_of P s.ctrl s.ctrl.inspiratoryFlow ∧
    s.live.expiratoryRpm = rpm_of P s.ctrl s.ctrl.expiratoryFlow ∧
    s.live.breathCycleTime = breath_cycle_time_of s.ctrl ∧
    s.live.inspiratoryTime = inspiratory_time_of s.ctrl ∧
    s.live.minuteVentilation = minute_ventilation_of s.ctrl := by
  induction h with
  | setup pre s h =>
    rw [ctrl_setup_some h]
    exact ⟨rfl, rfl, rfl, rfl, rfl, rfl, rfl, rfl, rfl⟩
  | reset pre s h =>
    rw [factory_reset_some h]
    exact ⟨rfl, rfl, rfl, rfl, rfl, rfl, rfl, rfl, rfl⟩
  | step k value s s' _ hcall ih => exact call_consistent hcall ih

/-- Witness for C1: the state after `factory_reset` and `ctrl_tidal_volume(500)` is
reachable, and its derived fields equal the formulas. -/
theorem reachable_consistent_witness :
    Reachable avr_build tuned_state ∧
    tuned_state.live.tidalSteps = tidal_steps_of avr_build tuned_state.ctrl 500 ∧
    tuned_state.live.minuteVentilation = 6000 :=
  ⟨tuned_state_reachable,
   (reachable_consistent avr_build tuned_state tuned_state_reachable).2.1,
   (reachable_consistent avr_build tuned_state tuned_state_reachable).2.2.2.2.2.2.2.2⟩

/-! ## Dependency minimality -/

/-- C2. A setter call that does not divide by zero changes, among the fields of `live`,
at most the ones on its dependency edge; every other field of `live` (the display mirrors
`volume` and `pressure` included) keeps its value. -/
theorem setter_changes_only_its_edge (P : Options) (k : setter_t) (s s' : State) (value : Nat) :
    call P k s value = some s' →
    s'.live =
      match k with
      | .start_position =>
        { s.live with
          fullPressSteps := s'.live.fullPressSteps, tidalSteps := s'.live.tidalSteps,
          inspiratoryRpm := s'.live.inspiratoryRpm, expiratoryRpm := s'.live.expiratoryRpm,
          steps400 := s'.live.steps400, steps600 := s'.live.steps600 }
      | .full_press_volume =>
        { s.live with
          tidalSteps := s'.live.tidalSteps,
          inspiratoryRpm := s'.live.inspiratoryRpm, expiratoryRpm := s'.live.expiratoryRpm,
          steps400 := s'.live.steps400, steps600 := s'.live.steps600 }
      | .tidal_volume =>
        { s.live with
          tidalSteps := s'.live.tidalSteps, minuteVentilation := s'.live.minuteVentilation }
      | .respiratory_rate =>
        { s.live with
          breathCycleTime := s'.live.breathCycleTime, inspiratoryTime := s'.live.inspiratoryTime,
          minuteVentilation := s'.live.minuteVentilation }
      | .respiratory_ratio => { s.live with inspiratoryTime := s'.live.inspiratoryTime }
      | .plateau_airway_pressure => s.live
      | .inspiratory_flow => { s.live with inspiratoryRpm := s'.live.inspiratoryRpm }
      | .expiratory_flow => { s.live with expiratoryRpm := s'.live.expiratoryRpm }
      | .pressure_trigger => s.live := by
  intro h
  cases k <;> simp only [call] at h
  · have e := ctrl_start_position_some h
    subst e
    rfl
  · have e := ctrl_full_press_volume_some h
    subst e
    rfl
  · have e := ctrl_tidal_volume_some h
    subst e
    rfl
  · have e := ctrl_respiratory_rate_some h
    subst e
    rfl
  · have e := ctrl_respiratory_ratio_some h
    subst e
    rfl
  · cases h
    rfl
  · have e := ctrl_inspiratory_flow_some h
    subst e
    rfl
  · have e := ctrl_expiratory_flow_some h
    subst e
    rfl
  · cases h
    rfl

/-- Witness for C2: `ctrl_tidal_volume(500)` after a factory reset changes `tidalSteps`
and `minuteVentilation` only. -/
theorem setter_changes_only_its_edge_witness :
    call avr_build .tidal_volume factory_state 500 = some tuned_state ∧
    tuned_state.live =
      { factory_state.live with
        tidalSteps := tuned_state.live.tidalSteps,
        minuteVentilation := tuned_state.live.minuteVentilation } :=
  ⟨tuned_state_call,
   setter_changes_only_its_edge avr_build .tidal_volume factory_state tuned_state 500
     tuned_state_call⟩

/-! ## Totality -/

theorem tidal_steps_defined (s : State) (volume : Nat) (hv : s.ctrl.fullPressVolume ≠ 0) :
    (tidal_steps s volume).isSome = true := by
  simp [tidal_steps, hv]

theorem live_volume_per_revolution_defined (P : Options) (s : State)
    (hs : s.live.fullPressSteps ≠ 0)
    (hr : (s.ctrl.fullPressVolume * P.STEPS_PER_REVOLUTION % ULONG_MOD) / s.live.fullPressSteps ≠ 0) :
    (live_volume_per_revolution P s).isSome = true := by
  simp [live_volume_per_revolution, volume_per_revolution, rpm, hs, hr]

theorem call_defined (P : Options) (k : setter_t) (s : State) (value : Nat)
    (h : divisors_ok P (stored k s.ctrl value) (steps_used P k s value))
    (hq : ((stored k s.ctrl value).respiratoryRatio + 1) % UINT_MOD ≠ 0) :
    (call P k s value).isSome = true := by
  obtain ⟨hr, hv, hs, hp⟩ := h
  cases k <;>
    simp only [stored, steps_used, full_press_steps_of] at hr hv hs hp hq <;>
    simp [call, ctrl_start_position, ctrl_full_press_volume, ctrl_tidal_volume,
      ctrl_respiratory_rate, ctrl_respiratory_ratio, ctrl_plateau_airway_pressure,
      ctrl_inspiratory_flow, ctrl_expiratory_flow, ctrl_pressure_trigger,
      live_full_press_steps, live_tital_steps, tidal_steps, live_volume_per_revolution,
      volume_per_revolution, rpm, live_400_steps, live_600_steps, live_breath_cycle_time,
      live_inspiratory_time, hr, hv, hs, hp, hq]

theorem ctrl_setup_defined (P : Options) (s : State)
    (h : divisors_ok P s.eeprom.ctrl (full_press_steps_of P s.eeprom.ctrl))
    (hq : (s.eeprom.ctrl.respiratoryRatio + 1) % UINT_MOD ≠ 0) :
    (ctrl_setup P s).isSome = true := by
  obtain ⟨hr, hv, hs, hp⟩ := h
  simp only [full_press_steps_of] at hs hp
  simp [ctrl_setup, live_full_press_steps, live_tital_steps, tidal_steps,
    live_volume_per_revolution, volume_per_revolution, rpm, live_400_steps, live_600_steps,
    live_breath_cycle_time, live_inspiratory_time, hr, hv, hs, hp, hq]

theorem factory_reset_defined (P : Options) (s : State)
    (hs : full_press_steps_of P factory_ctrl ≠ 0)
    (hp : volume_per_revolution_of P factory_ctrl ≠ 0) :
    (factory_reset P s).isSome = true := by
  have h1 := live_full_press_steps_defined P { s with ctrl := factory_ctrl, limit := factory_limit }
    (show (850 : Nat) ≠ 0 by decide) hs hp
  obtain ⟨s1, e1⟩ := Option.isSome_iff_exists.mp h1
  have hc : s1.ctrl = factory_ctrl := by
    obtain ⟨-, -, -, e⟩ := live_full_press_steps_some e1
    rw [e]
  have h2 : (live_breath_cycle_time s1).isSome = true := by
    simp [live_breath_cycle_time, hc, factory_ctrl]
  obtain ⟨s2, e2⟩ := Option.isSome_iff_exists.mp h2
  have hc2 : s2.ctrl = factory_ctrl := by
    obtain ⟨-, e⟩ := live_breath_cycle_time_some e2
    rw [e, ← hc]
  have h3 : (live_inspiratory_time s2).isSome = true := by
    simp [live_inspiratory_time, hc2, factory_ctrl, UINT_MOD]
  obtain ⟨s3, e3⟩ := Option.isSome_iff_exists.mp h3
  unfold factory_reset
  simp only [Option.bind_eq_bind, e1, e2, e3, Option.some_bind]
  rfl

/-- C3 as stated fails: in the state left by a factory reset every documented
precondition holds for `ctrl_respiratory_ratio(65535)`, yet the divisor
`ctrl.respiratoryRatio + 1` of `live_inspiratory_time` is zero in 16-bit `unsigned`. -/
theorem ratio_plus_one_wraps :
    divisors_ok avr_build (stored .respiratory_ratio factory_state.ctrl 65535)
      (steps_used avr_build .respiratory_ratio factory_state 65535) ∧
    call avr_build .respiratory_ratio factory_state 65535 = none := by
  decide

/-- C3, amended. When `respiratoryRate ≠ 0`, `fullPressVolume ≠ 0`, `fullPressSteps ≠ 0`
and `volumePerRevolution ≠ 0` hold for the settings an operation computes with, and in
addition `respiratoryRatio + 1` is not zero in `unsigned` (`respiratoryRatio ≠ 65535`),
the operation executes no division by zero: this holds for every setter, every recompute
function, `ctrl_setup` and `factory_reset`, whatever the other settings are
(`live_minute_ventilation` executes no division at all). -/
theorem defined_when_divisors_ok (P : Options) (s : State) :
    (∀ k value, divisors_ok P (stored k s.ctrl value) (steps_used P k s value) →
      ((stored k s.ctrl value).respiratoryRatio + 1) % UINT_MOD ≠ 0 →
      (call P k s value).isSome = true) ∧
    (divisors_ok P s.ctrl s.live.fullPressSteps →
      (s.ctrl.respiratoryRatio + 1) % UINT_MOD ≠ 0 →
      (∀ volume, (tidal_steps s volume).isSome = true) ∧
      (live_tital_steps s).isSome = true ∧
      (live_400_steps s).isSome = true ∧
      (live_600_steps s).isSome = true ∧
      (live_volume_per_revolution P s).isSome = true ∧
      (live_breath_cycle_time s).isSome = true ∧
      (live_inspiratory_time s).isSome = true) ∧
    (divisors_ok P s.ctrl (full_press_steps_of P s.ctrl) →
      (live_full_press_steps P s).isSome = true) ∧
    (divisors_ok P s.eeprom.ctrl (full_press_steps_of P s.eeprom.ctrl) →
      (s.eeprom.ctrl.respiratoryRatio + 1) % UINT_MOD ≠ 0 →
      (ctrl_setup P s).isSome = true) ∧
    (divisors_ok P factory_ctrl (full_press_steps_of P factory_ctrl) →
      (factory_reset P s).isSome = true) := by
  refine ⟨fun k value h hq => call_defined P k s value h hq, ?_, ?_,
    fun h hq => ctrl_setup_defined P s h hq, fun h => factory_reset_defined P s h.2.2.1 h.2.2.2⟩
  · rintro ⟨hr, hv, hs, hp⟩ hq
    refine ⟨fun volume => tidal_steps_defined s volume hv, ?_, ?_, ?_,
      live_volume_per_revolution_defined P s hs hp, ?_, ?_⟩
    · simp [live_tital_steps, tidal_steps, hv]
    · simp [live_400_steps, tidal_steps, hv]
    · simp [live_600_steps, tidal_steps, hv]
    · simp [live_breath_cycle_time, hr]
    · simp [live_inspiratory_time, hq]
  · rintro ⟨-, hv, hs, hp⟩
    exact live_full_press_steps_defined P s hv hs hp

/-- Witness for C3: in the state left by a factory reset the preconditions hold for
`ctrl_respiratory_ratio(2)` and for `ctrl_start_position(400)`, and both calls are
defined. -/
theorem defined_when_divisors_ok_witness :
    (divisors_ok avr_build (stored .respiratory_ratio factory_state.ctrl 2)
        (steps_used avr_build .respiratory_ratio factory_state 2) ∧
      (call avr_build .respiratory_ratio factory_state 2).isSome = true) ∧
    (divisors_ok avr_build (stored .start_position factory_state.ctrl 400)
        (steps_used avr_build .start_position factory_state 400) ∧
      (call avr_build .start_position factory_state 400).isSome = true) ∧
    (divisors_ok avr_build factory_state.ctrl factory_state.live.fullPressSteps ∧
      (live_inspiratory_time factory_state).isSome = true) ∧
    (divisors_ok avr_build factory_state.eeprom.ctrl
        (full_press_steps_of avr_build factory_state.eeprom.ctrl) ∧
      (ctrl_setup avr_build factory_state).isSome = true) ∧
    (divisors_ok avr_build factory_ctrl (full_press_steps_of avr_build factory_ctrl) ∧
      (factory_reset avr_build blank_state).isSome = true) :=
  ⟨⟨by decide, (defined_when_divisors_ok avr_build factory_state).1 .respiratory_ratio 2
      (by decide) (by decide)⟩,
   ⟨by decide, (defined_when_divisors_ok avr_build factory_state).1 .start_position 400
      (by decide) (by decide)⟩,
   ⟨by decide, ((defined_when_divisors_ok avr_build factory_state).2.1
      (by decide) (by decide)).2.2.2.2.2.2⟩,
   ⟨by decide, (defined_when_divisors_ok avr_build factory_state).2.2.2.1
      (by decide) (by decide)⟩,
   ⟨by decide, (defined_when_divisors_ok avr_build blank_state).2.2.2.2 (by decide)⟩⟩

/-! ## Input clamp -/

/-- C4. For all `value`, `step`, `dir` and all bounds `lo ≤ hi`, the result of
`clamp_input_value` lies in `[lo, hi]`, whatever the sign or size of `step`, wherever
`value` starts, and also when `value ± step` wraps in the width of `int`. -/
theorem clamp_input_value_in_bounds (value step dir lo hi : Int) (h : lo ≤ hi) :
    lo ≤ clamp_input_value value step dir lo hi ∧ clamp_input_value value step dir lo hi ≤ hi := by
  unfold clamp_input_value
  simp only
  split_ifs <;> omega

/-- Witness for C4: stepping up from `INT_MAX` wraps, and the result is still inside
`[0, 100]`. -/
theorem clamp_input_value_in_bounds_witness :
    (0 : Int) ≤ 100 ∧ 0 ≤ clamp_input_value 32767 1 1 0 100 ∧
      clamp_input_value 32767 1 1 0 100 ≤ 100 :=
  ⟨by decide, clamp_input_value_in_bounds 32767 1 1 0 100 (by decide)⟩

/-! ## Alarm history -/

theorem alarm_event_same (s : State) (a : Nat) (h : s.alarm = a) :
    alarm_event s a = { s with red_led_calls := s.red_led_calls + 1 } := by
  simp [alarm_event, h]

theorem alarm_event_other (s : State) (a : Nat) (h : s.alarm ≠ a) :
    alarm_event s a =
      { s with
        alarm := a,
        events := ⟨a, s.events.list0, s.events.list1, s.events.list2, s.events.list3,
          min (s.events.length + 1) MAX_EVENTS⟩,
        red_led_calls := s.red_led_calls + 1 } := by
  unfold alarm_event
  simp only [h, ne_eq, not_false_eq_true, if_true]
  by_cases hl : s.events.length + 1 > MAX_EVENTS
  · rw [if_pos hl, Nat.min_eq_right (Nat.le_of_lt hl)]
  · rw [if_neg hl, Nat.min_eq_left (Nat.le_of_not_lt hl)]

theorem alarm_event_alarm (s : State) (a : Nat) : (alarm_event s a).alarm = a := by
  by_cases h : s.alarm = a
  · rw [alarm_event_same s a h]
    exact h
  · rw [alarm_event_other s a h]

/-- C5. When the code `a` differs from the current alarm, `alarm_event(a)` makes `a` the
current alarm, puts it in slot 0 of the history with the old slots 0..3 moved to 1..4 (the
old slot 4 is dropped), and sets the counter to `min(length + 1, MAX_EVENTS)`.  The code
`NO_ALARM` is treated like any other, so clearing an active alarm is recorded and counted
the same way. -/
theorem alarm_event_transition (s : State) (a : Nat) (h : a ≠ s.alarm) :
    (alarm_event s a).alarm = a ∧
    (alarm_event s a).events.list =
      [a, s.events.list0, s.events.list1, s.events.list2, s.events.list3] ∧
    (alarm_event s a).events.length = min (s.events.length + 1) MAX_EVENTS ∧
    MAX_EVENTS = 5 := by
  rw [alarm_event_other s a (Ne.symm h)]
  exact ⟨rfl, rfl, rfl, rfl⟩

/-- Witness for C5: raising `NO_ALARM` while alarm 3 is active records the clearing. -/
theorem alarm_event_transition_witness :
    avr_build.NO_ALARM ≠ alarmed_state.alarm ∧
    (alarm_event alarmed_state avr_build.NO_ALARM).alarm = avr_build.NO_ALARM ∧
    (alarm_event alarmed_state avr_build.NO_ALARM).events.list =
      [avr_build.NO_ALARM, alarmed_state.events.list0, alarmed_state.events.list1,
        alarmed_state.events.list2, alarmed_state.events.list3] ∧
    (alarm_event alarmed_state avr_build.NO_ALARM).events.length =
      min (alarmed_state.events.length + 1) MAX_EVENTS ∧
    MAX_EVENTS = 5 :=
  ⟨by decide, alarm_event_transition alarmed_state avr_build.NO_ALARM (by decide)⟩

/-- C6. Calling `alarm_event(a)` a second time leaves the current alarm, the five history
slots and the counter as the first call left them; more generally `alarm_event(a)` in a
state whose current alarm is `a` changes none of them. -/
theorem alarm_event_repeat (s : State) (a : Nat) :
    ((alarm_event (alarm_event s a) a).alarm = (alarm_event s a).alarm ∧
      (alarm_event (alarm_event s a) a).events.list = (alarm_event s a).events.list ∧
      (alarm_event (alarm_event s a) a).events.length = (alarm_event s a).events.length) ∧
    (s.alarm = a →
      (alarm_event s a).alarm = s.alarm ∧
      (alarm_event s a).events.list = s.events.list ∧
      (alarm_event s a).events.length = s.events.length) := by
  constructor
  · rw [alarm_event_same (alarm_event s a) a (alarm_event_alarm s a)]
    exact ⟨rfl, rfl, rfl⟩
  · intro h
    rw [alarm_event_same s a h]
    exact ⟨rfl, rfl, rfl⟩

/-- Witness for C6: alarm 3 raised again while it is the current alarm. -/
theorem alarm_event_repeat_witness :
    alarmed_state.alarm = 3 ∧
    (alarm_event alarmed_state 3).alarm = alarmed_state.alarm ∧
    (alarm_event alarmed_state 3).events.list = alarmed_state.events.list ∧
    (alarm_event alarmed_state 3).events.length = alarmed_state.events.length :=
  ⟨by decide, (alarm_event_repeat alarmed_state 3).2 (by decide)⟩

theorem take_append_take (n : Nat) (xs ys : List Nat) :
    (xs ++ ys.take n).take n = (xs ++ ys).take n := by
  rw [List.take_append_eq_append_take, List.take_append_eq_append_take, List.take_take]
  congr 2
  omega

theorem raise_all_history (codes : List Nat) :
    ∀ s : State, each_differs s.alarm codes = true → s.events.length ≤ MAX_EVENTS →
      (raise_all s codes).events.list = (codes.reverse ++ s.events.list).take 5 ∧
      (raise_all s codes).events.length = min (s.events.length + codes.length) MAX_EVENTS ∧
      (raise_all s codes).alarm = (codes.getLast?).getD s.alarm := by
  induction codes with
  | nil =>
    intro s _ hlen
    exact ⟨rfl, (Nat.min_eq_left hlen).symm, rfl⟩
  | cons c cs ih =>
    intro s hc hlen
    simp only [each_differs, Bool.and_eq_true, bne_iff_ne, ne_eq] at hc
    obtain ⟨hne, hcs⟩ := hc
    have hne : s.alarm ≠ c := fun h => hne h.symm
    have hstep : raise_all s (c :: cs) = raise_all (alarm_event s c) cs := rfl
    have h1 := alarm_event_other s c hne
    have ha : (alarm_event s c).alarm = c := alarm_event_alarm s c
    have hl : (alarm_event s c).events.list = (c :: s.events.list).take 5 := by
      rw [h1]
      rfl
    have hn : (alarm_event s c).events.length = min (s.events.length + 1) MAX_EVENTS := by
      rw [h1]
    obtain ⟨i1, i2, i3⟩ := ih (alarm_event s c) (by rw [ha]; exact hcs)
      (by rw [hn]; exact Nat.min_le_right _ _)
    rw [hstep]
    refine ⟨?_, ?_, ?_⟩
    · rw [i1, hl, take_append_take, List.reverse_cons, List.append_assoc]
      rfl
    · rw [i2, hn, List.length_cons]
      simp only [MAX_EVENTS]
      omega
    · rw [i3, ha]
      cases cs with
      | nil => rfl
      | cons d ds => rfl

/-- C7. From the cleared state `ctrl_setup` produces, raise the codes `c1, ..., cN` in
order, where `c1 ≠ NO_ALARM` and every code differs from the one before it.  Then the
counter is `min(N, 5)`, never above `MAX_EVENTS`; and for `N ≥ 5` the counter is exactly 5,
slot `i` of the history holds `c(N−i)` for `i = 0..4` (newest first), and the current
alarm is `cN`. -/
theorem history_bound_and_order (P : Options) (pre s0 : State) (codes : List Nat)
    (h0 : ctrl_setup P pre = some s0)
    (hc : each_differs P.NO_ALARM codes = true) :
    (raise_all s0 codes).events.length = min codes.length 5 ∧
    (raise_all s0 codes).events.length ≤ MAX_EVENTS ∧
    (5 ≤ codes.length →
      (raise_all s0 codes).events.length = 5 ∧
      (∀ i, i < 5 →
        (raise_all s0 codes).events.list[i]? = codes[codes.length - 1 - i]?) ∧
      some (raise_all s0 codes).alarm = codes.getLast?) := by
  have e := ctrl_setup_some h0
  have hal : s0.alarm = P.NO_ALARM := by rw [e]
  have hlen : s0.events.length = 0 := by rw [e]; rfl
  obtain ⟨i1, i2, i3⟩ := raise_all_history codes s0 (by rw [hal]; exact hc)
    (by rw [hlen]; exact Nat.zero_le _)
  rw [hlen, Nat.zero_add] at i2
  refine ⟨i2, by rw [i2]; exact Nat.min_le_right _ _, fun hN => ⟨?_, ?_, ?_⟩⟩
  · rw [i2]
    simp only [MAX_EVENTS]
    omega
  · intro i hi
    rw [i1, List.getElem?_take_of_lt hi, List.getElem?_append_left (by rw [List.length_reverse]; omega),
      List.getElem?_reverse (by omega)]
  · rw [i3]
    cases codes with
    | nil => simp at hN
    | cons c cs =>
      cases hg : (c :: cs).getLast? with
      | none => simp at hg
      | some x => rfl

theorem setup_of_factory_state : ctrl_setup avr_build factory_state = some factory_state := by
  decide

/-- Witness for C7: six codes raised after start-up, the third repeating the first. -/
theorem history_bound_and_order_witness :
    ctrl_setup avr_build factory_state = some factory_state ∧
    each_differs avr_build.NO_ALARM [1, 2, 1, 3, 4, 5] = true ∧
    (raise_all factory_state [1, 2, 1, 3, 4, 5]).events.list = [5, 4, 3, 1, 2] ∧
    (raise_all factory_state [1, 2, 1, 3, 4, 5]).events.length = 5 ∧
    (∀ i, i < 5 → (raise_all factory_state [1, 2, 1, 3, 4, 5]).events.list[i]? =
      [1, 2, 1, 3, 4, 5][6 - 1 - i]?) :=
  ⟨setup_of_factory_state, by decide, by decide,
   ((history_bound_and_order avr_build factory_state factory_state [1, 2, 1, 3, 4, 5]
      setup_of_factory_state (by decide)).2.2 (by decide)).1,
   ((history_bound_and_order avr_build factory_state factory_state [1, 2, 1, 3, 4, 5]
      setup_of_factory_state (by decide)).2.2 (by decide)).2.1⟩

/-! ## Visual indicator -/

/-- C8 as stated fails: alarm 3 raised while it is already the current alarm still calls
`red_led()` once. -/
theorem red_led_on_repeat :
    alarmed_state.alarm = 3 ∧
    (alarm_event alarmed_state 3).red_led_calls = alarmed_state.red_led_calls + 1 := by
  decide

/-- C8, amended. `alarm_event(a)` calls `red_led()` exactly once on every call, whether or
not `a` differs from the current alarm; when `a` is the current alarm the call changes
nothing else in the state. -/
theorem alarm_event_red_led (s : State) (a : Nat) :
    (alarm_event s a).red_led_calls = s.red_led_calls + 1 ∧
    (a = s.alarm → alarm_event s a = { s with red_led_calls := s.red_led_calls + 1 }) := by
  constructor
  · by_cases h : s.alarm = a
    · rw [alarm_event_same s a h]
    · rw [alarm_event_other s a h]
  · intro h
    exact alarm_event_same s a h.symm

/-- Witness for C8: the repeated raise of alarm 3 changes the call counter only. -/
theorem alarm_event_red_led_witness :
    3 = alarmed_state.alarm ∧
    alarm_event alarmed_state 3 =
      { alarmed_state with red_led_calls := alarmed_state.red_led_calls + 1 } :=
  ⟨by decide, (alarm_event_red_led alarmed_state 3).2 (by decide)⟩

/-! ## Durable storage -/

/-- C9 as stated fails: after `ctrl_tidal_volume(500)` in the state left by a factory
reset, the record stored at offset 0 still has the old tidal volume and differs from the
settings in memory. -/
theorem setter_does_not_persist :
    call avr_build .tidal_volume factory_state 500 = some tuned_state ∧
    tuned_state.ctrl.tidalVolume = 500 ∧ tuned_state.eeprom.ctrl.tidalVolume = 450 ∧
    tuned_state.eeprom.ctrl ≠ tuned_state.ctrl := by
  decide

/-- C9, amended. No setter writes to durable storage: after each of the nine setters the
stored records are the ones stored before the call.  The full records are written by
`factory_reset`, as its last step: after it the record at offset 0 equals the settings in
memory and the record at offset `sizeof(ctrl_t)` equals the limits in memory. -/
theorem setters_leave_storage (P : Options) (k : setter_t) (s s' : State) (value : Nat)
    (h : call P k s value = some s') :
    s'.eeprom = s.eeprom ∧
    (∀ t t' : State, factory_reset P t = some t' →
      t'.eeprom.ctrl = t'.ctrl ∧ t'.eeprom.limit = t'.limit) := by
  constructor
  · cases k <;> simp only [call] at h
    · rw [ctrl_start_position_some h]
    · rw [ctrl_full_press_volume_some h]
    · rw [ctrl_tidal_volume_some h]
    · rw [ctrl_respiratory_rate_some h]
    · rw [ctrl_respiratory_ratio_some h]
    · cases h
      rfl
    · rw [ctrl_inspiratory_flow_some h]
    · rw [ctrl_expiratory_flow_some h]
    · cases h
      rfl
  · intro t t' ht
    rw [factory_reset_some ht]
    exact ⟨rfl, rfl⟩

/-- Witness for C9: `ctrl_tidal_volume(500)` leaves the storage written by the factory
reset as it was. -/
theorem setters_leave_storage_witness :
    call avr_build .tidal_volume factory_state 500 = some tuned_state ∧
    tuned_state.eeprom = factory_state.eeprom ∧
    (factory_reset avr_build blank_state = some factory_state →
      factory_state.eeprom.ctrl = factory_state.ctrl ∧
      factory_state.eeprom.limit = factory_state.limit) :=
  ⟨tuned_state_call,
   (setters_leave_storage avr_build .tidal_volume factory_state tuned_state 500
      tuned_state_call).1,
   (setters_leave_storage avr_build .tidal_volume factory_state tuned_state 500
      tuned_state_call).2 blank_state factory_state⟩

/-! ## Factory reset -/

/-- C10. On a build whose constants give the factory settings a nonzero `fullPressSteps`
and a nonzero `volumePerRevolution`, `factory_reset` is defined in every prior state and
leaves: the settings 500, 850, 450, 12, 3, 300, 35, 35, 50, not active; the limits
pressure [50, 400], ventilation [3000, 8000], volume [180, 750], each minimum at most its
maximum; `breathCycleTime = 5000`, `inspiratoryTime = 1250`, `minuteVentilation = 5400`;
the mirrors `volume = 450` and `pressure = 300`; and both stored records equal to the
records in memory. -/
theorem factory_reset_determinism (P : Options) (s : State)
    (hs : full_press_steps_of P factory_ctrl ≠ 0)
    (hp : volume_per_revolution_of P factory_ctrl ≠ 0) :
    ∃ s', factory_reset P s = some s' ∧
      s'.ctrl =
        { startPosition := 500, fullPressVolume := 850, tidalVolume := 450,
          respiratoryRate := 12, respiratoryRatio := 3, plateauAirwayPressure := 300,
          inspiratoryFlow := 35, expiratoryFlow := 35, triggerPressure := 50,
          ventilationActive := false } ∧
      s'.limit =
        { minimum := { pressure := 50, ventilation := 3000, volume := 180 },
          maximum := { pressure := 400, ventilation := 8000, volume := 750 } } ∧
      s'.limit.minimum.pressure ≤ s'.limit.maximum.pressure ∧
      s'.limit.minimum.ventilation ≤ s'.limit.maximum.ventilation ∧
      s'.limit.minimum.volume ≤ s'.limit.maximum.volume ∧
      s'.live.breathCycleTime = 5000 ∧
      s'.live.inspiratoryTime = 1250 ∧
      s'.live.minuteVentilation = 5400 ∧
      s'.live.volume = 450 ∧
      s'.live.pressure = 300 ∧
      s'.eeprom.ctrl = s'.ctrl ∧
      s'.eeprom.limit = s'.limit := by
  obtain ⟨s', h⟩ := Option.isSome_iff_exists.mp (factory_reset_defined P s hs hp)
  refine ⟨s', h, ?_⟩
  rw [factory_reset_some h]
  obtain ⟨t1, t2, t3⟩ := factory_times
  exact ⟨rfl, rfl, show (50 : Nat) ≤ 400 by decide, show (3000 : Nat) ≤ 8000 by decide,
    show (180 : Nat) ≤ 750 by decide, t1, t2, t3, rfl, rfl, rfl, rfl⟩

/-- Witness for C10: the build `avr_build` satisfies the two conditions, and the factory
reset of the blank state is defined with `inspiratoryTime = 1250`. -/
theorem factory_reset_determinism_witness :
    full_press_steps_of avr_build factory_ctrl ≠ 0 ∧
    volume_per_revolution_of avr_build factory_ctrl ≠ 0 ∧
    ∃ s', factory_reset avr_build blank_state = some s' ∧ s'.live.inspiratoryTime = 1250 :=
  ⟨by decide, by decide,
   (factory_reset_determinism avr_build blank_state (by decide) (by decide)).imp
     fun _ h => ⟨h.1, h.2.2.2.2.2.2.2.1⟩⟩

theorem reset_of_alarmed_state : factory_reset avr_build alarmed_state = some alarmed_state := by
  decide

/-- C11. `factory_reset` leaves the alarm audit trail alone: whatever the prior state, it
changes neither the current alarm, nor any of the five history slots, nor the counter, and
it does not call `red_led()`. -/
theorem factory_reset_keeps_alarms (P : Options) (s s' : State)
    (h : factory_reset P s = some s') :
    s'.alarm = s.alarm ∧ s'.events.list = s.events.list ∧
    s'.events.length = s.events.length ∧ s'.red_led_calls = s.red_led_calls := by
  rw [factory_reset_some h]
  exact ⟨rfl, rfl, rfl, rfl⟩

/-- Witness for C11: a factory reset while alarm 3 is active. -/
theorem factory_reset_keeps_alarms_witness :
    factory_reset avr_build alarmed_state = some alarmed_state ∧
    alarmed_state.alarm = 3 ∧ alarmed_state.events.list = [3, 0, 0, 0, 0] ∧
    alarmed_state.events.length = 1 ∧
    alarmed_state.red_led_calls = alarmed_state.red_led_calls :=
  ⟨reset_of_alarmed_state, by decide, by decide, by decide,
   (factory_reset_keeps_alarms avr_build alarmed_state alarmed_state
      reset_of_alarmed_state).2.2.2⟩

/-! ## Setter frame -/

/-- C12. A setter call stores `value` in its own field of the settings and leaves every
other field of the settings (`ventilationActive` included), the six safety limits, the
current alarm and the event history as they were. -/
theorem setter_frame (P : Options) (k : setter_t) (s s' : State) (value : Nat) :
    call P k s value = some s' →
    s'.ctrl =
      (match k with
      | .start_position => { s.ctrl with startPosition := value }
      | .full_press_volume => { s.ctrl with fullPressVolume := value }
      | .tidal_volume => { s.ctrl with tidalVolume := value }
      | .respiratory_rate => { s.ctrl with respiratoryRate := value }
      | .respiratory_ratio => { s.ctrl with respiratoryRatio := value }
      | .plateau_airway_pressure => { s.ctrl with plateauAirwayPressure := value }
      | .inspiratory_flow => { s.ctrl with inspiratoryFlow := value }
      | .expiratory_flow => { s.ctrl with expiratoryFlow := value }
      | .pressure_trigger => { s.ctrl with triggerPressure := value }) ∧
    s'.limit = s.limit ∧ s'.alarm = s.alarm ∧ s'.events = s.events := by
  intro h
  cases k <;> simp only [call] at h
  · have e := ctrl_start_position_some h
    subst e
    exact ⟨rfl, rfl, rfl, rfl⟩
  · have e := ctrl_full_press_volume_some h
    subst e
    exact ⟨rfl, rfl, rfl, rfl⟩
  · have e := ctrl_tidal_volume_some h
    subst e
    exact ⟨rfl, rfl, rfl, rfl⟩
  · have e := ctrl_respiratory_rate_some h
    subst e
    exact ⟨rfl, rfl, rfl, rfl⟩
  · have e := ctrl_respiratory_ratio_some h
    subst e
    exact ⟨rfl, rfl, rfl, rfl⟩
  · cases h
    exact ⟨rfl, rfl, rfl, rfl⟩
  · have e := ctrl_inspiratory_flow_some h
    subst e
    exact ⟨rfl, rfl, rfl, rfl⟩
  · have e := ctrl_expiratory_flow_some h
    subst e
    exact ⟨rfl, rfl, rfl, rfl⟩
  · cases h
    exact ⟨rfl, rfl, rfl, rfl⟩

/-- Witness for C12: `ctrl_tidal_volume(500)` after a factory reset. -/
theorem setter_frame_witness :
    call avr_build .tidal_volume factory_state 500 = some tuned_state ∧
    tuned_state.ctrl = { factory_state.ctrl with tidalVolume := 500 } ∧
    tuned_state.limit = factory_state.limit ∧ tuned_state.alarm = factory_state.alarm ∧
    tuned_state.events = factory_state.events :=
  ⟨tuned_state_call,
   setter_frame avr_build .tidal_volume factory_state tuned_state 500 tuned_state_call⟩

/-! ## Start-up -/

/-- C13. When every divisor is nonzero for the settings stored at offset 0, `ctrl_setup`
is defined and leaves: the settings and limits equal to the two stored records, the
current alarm `NO_ALARM`, the counter 0 and the five history slots 0, every derived field
equal to its formula on the loaded settings, and the mirrors `volume = tidalVolume`,
`pressure = plateauAirwayPressure`.  The derived values do not depend on the `live`
record before the call: any two prior states with the same storage get the same one. -/
theorem ctrl_setup_postcondition (P : Options) (s : State)
    (h : divisors_ok P s.eeprom.ctrl (full_press_steps_of P s.eeprom.ctrl))
    (hq : (s.eeprom.ctrl.respiratoryRatio + 1) % UINT_MOD ≠ 0) :
    ∃ s', ctrl_setup P s = some s' ∧
      s'.ctrl = s.eeprom.ctrl ∧ s'.limit = s.eeprom.limit ∧
      s'.alarm = P.NO_ALARM ∧ s'.events.length = 0 ∧ s'.events.list = [0, 0, 0, 0, 0] ∧
      s'.live.fullPressSteps = full_press_steps_of P s'.ctrl ∧
      s'.live.tidalSteps = tidal_steps_of P s'.ctrl s'.ctrl.tidalVolume ∧
      s'.live.steps400 = tidal_steps_of P s'.ctrl 400 ∧
      s'.live.steps600 = tidal_steps_of P s'.ctrl 600 ∧
      s'.live.inspiratoryRpm = rpm_of P s'.ctrl s'.ctrl.inspiratoryFlow ∧
      s'.live.expiratoryRpm = rpm_of P s'.ctrl s'.ctrl.expiratoryFlow ∧
      s'.live.breathCycleTime = breath_cycle_time_of s'.ctrl ∧
      s'.live.inspiratoryTime = inspiratory_time_of s'.ctrl ∧
      s'.live.minuteVentilation = minute_ventilation_of s'.ctrl ∧
      s'.live.volume = s'.ctrl.tidalVolume ∧
      s'.live.pressure = s'.ctrl.plateauAirwayPressure ∧
      (∀ t : State, t.eeprom = s.eeprom →
        (ctrl_setup P t).map (fun t' => t'.live) = some s'.live) := by
  obtain ⟨s', e⟩ := Option.isSome_iff_exists.mp (ctrl_setup_defined P s h hq)
  refine ⟨s', e, ?_⟩
  have e' := ctrl_setup_some e
  refine ⟨by rw [e'], by rw [e'], by rw [e'], by rw [e']; rfl, by rw [e']; rfl,
    by rw [e'], by rw [e'], by rw [e'], by rw [e'], by rw [e'], by rw [e'], by rw [e'],
    by rw [e'], by rw [e'], by rw [e'], by rw [e'], ?_⟩
  intro t ht
  obtain ⟨t', et⟩ := Option.isSome_iff_exists.mp
    (ctrl_setup_defined P t (by rw [ht]; exact h) (by rw [ht]; exact hq))
  rw [et, Option.map_some', ctrl_setup_some et, e', ht]

/-- Witness for C13: start-up from the storage a factory reset wrote, with a `live`
record that holds other values. -/
theorem ctrl_setup_postcondition_witness :
    divisors_ok avr_build tuned_state.eeprom.ctrl
      (full_press_steps_of avr_build tuned_state.eeprom.ctrl) ∧
    (tuned_state.eeprom.ctrl.respiratoryRatio + 1) % UINT_MOD ≠ 0 ∧
    ∃ s', ctrl_setup avr_build tuned_state = some s' ∧ s'.live.minuteVentilation = 5400 :=
  ⟨by decide, by decide,
   (ctrl_setup_postcondition avr_build tuned_state (by decide) (by decide)).imp
     fun s' h => ⟨h.1, by
       have e := h.2.2.2.2.2.2.2.2.2.2.2.2.2.2.1
       have c := h.2.1
       rw [e, c]
       decide⟩⟩

/-! ## Minute ventilation -/

/-- C14 as stated fails: with the factory tidal volume 450, `ctrl_respiratory_rate(150)`
leaves `minuteVentilation = 1964`, while the product 450 × 150 is 67500. -/
theorem minute_ventilation_wraps :
    factory_state.ctrl.tidalVolume = 450 ∧
    (call avr_build .respiratory_rate factory_state 150).map
      (fun s => s.live.minuteVentilation) = some 1964 ∧
    450 * 150 = 67500 := by
  decide

/-- C14, amended. After `ctrl_tidal_volume(v)` in a state with `respiratoryRate = r`, and
after `ctrl_respiratory_rate(r)` in a state with `tidalVolume = v`, `minuteVentilation` is
the product `v × r` reduced modulo 2^16, the product being formed in 16-bit `unsigned`;
it is the mathematical product exactly when `v × r ≤ 65535`. -/
theorem minute_ventilation_mod (s s' : State) (value : Nat) :
    (ctrl_tidal_volume s value = some s' →
      s'.live.minuteVentilation = value * s.ctrl.respiratoryRate % 65536 ∧
      (s'.live.minuteVentilation = value * s.ctrl.respiratoryRate ↔
        value * s.ctrl.respiratoryRate ≤ 65535)) ∧
    (ctrl_respiratory_rate s value = some s' →
      s'.live.minuteVentilation = s.ctrl.tidalVolume * value % 65536 ∧
      (s'.live.minuteVentilation = s.ctrl.tidalVolume * value ↔
        s.ctrl.tidalVolume * value ≤ 65535)) := by
  constructor
  · intro h
    have e := ctrl_tidal_volume_some h
    subst e
    refine ⟨rfl, ?_⟩
    show value * s.ctrl.respiratoryRate % 65536 = value * s.ctrl.respiratoryRate ↔ _
    omega
  · intro h
    have e := ctrl_respiratory_rate_some h
    subst e
    refine ⟨rfl, ?_⟩
    show s.ctrl.tidalVolume * value % 65536 = s.ctrl.tidalVolume * value ↔ _
    omega

/-- Witness for C14: `ctrl_tidal_volume(500)` at rate 12 gives 6000. -/
theorem minute_ventilation_mod_witness :
    ctrl_tidal_volume factory_state 500 = some tuned_state ∧
    tuned_state.live.minuteVentilation = 500 * factory_state.ctrl.respiratoryRate % 65536 ∧
    (tuned_state.live.minuteVentilation = 500 * factory_state.ctrl.respiratoryRate ↔
      500 * factory_state.ctrl.respiratoryRate ≤ 65535) :=
  ⟨tuned_state_call,
   (minute_ventilation_mod factory_state tuned_state 500).1 tuned_state_call⟩

/-! ## Input clamp, value -/

/-- C15. For bounds `lo ≤ hi`, when `value + step` (for `dir > 0`) or `value − step` (for
`dir ≤ 0`, so also for `dir = 0`) stays in the range of `int`, `clamp_input_value` returns
`min(hi, max(lo, value ± step))`; when the stepped value already lies in `[lo, hi]` the
result is the stepped value itself. -/
theorem clamp_input_value_value (value step dir lo hi : Int) (h : lo ≤ hi) :
    (0 < dir → -32768 ≤ value + step → value + step ≤ 32767 →
      clamp_input_value value step dir lo hi = min hi (max lo (value + step)) ∧
      (lo ≤ value + step → value + step ≤ hi →
        clamp_input_value value step dir lo hi = value + step)) ∧
    (dir ≤ 0 → -32768 ≤ value - step → value - step ≤ 32767 →
      clamp_input_value value step dir lo hi = min hi (max lo (value - step)) ∧
      (lo ≤ value - step → value - step ≤ hi →
        clamp_input_value value step dir lo hi = value - step)) := by
  unfold clamp_input_value wrap_int
  simp only [min_def, max_def]
  constructor
  · intro hd h1 h2
    rw [if_pos (show dir > 0 from hd)]
    constructor
    · split_ifs <;> omega
    · intro h3 h4
      split_ifs <;> omega
  · intro hd h1 h2
    rw [if_neg (show ¬ dir > 0 by omega)]
    constructor
    · split_ifs <;> omega
    · intro h3 h4
      split_ifs <;> omega

/-- Witness for C15: one step of 5 down from 20 with `dir = 0` inside `[0, 100]`, and one
step up from 98 that is cut at 100. -/
theorem clamp_input_value_value_witness :
    (0 : Int) ≤ 100 ∧
    clamp_input_value 20 5 0 0 100 = 20 - 5 ∧
    clamp_input_value 98 5 1 0 100 = min 100 (max 0 (98 + 5)) :=
  ⟨by decide,
   ((clamp_input_value_value 20 5 0 0 100 (by decide)).2 (by decide) (by decide)
      (by decide)).2 (by decide) (by decide),
   ((clamp_input_value_value 98 5 1 0 100 (by decide)).1 (by decide) (by decide)
      (by decide)).1⟩

/-! ## Flow setters and the shared recompute -/

theorem factory_state_consistent : Consistent avr_build factory_state := by
  decide

/-- C16. In a state with `fullPressSteps ≠ 0` and `volumePerRevolution ≠ 0`,
`ctrl_inspiratory_flow(f)` is defined and gives the same `inspiratoryRpm` as storing `f` in
`ctrl.inspiratoryFlow` and running `live_volume_per_revolution`; `ctrl_expiratory_flow(f)`
and `expiratoryRpm` likewise.  When the prior state is consistent the two ways give the
same state altogether. -/
theorem flow_setters_agree (P : Options) (s : State) (value : Nat)
    (hs : s.live.fullPressSteps ≠ 0)
    (hv : (s.ctrl.fullPressVolume * P.STEPS_PER_REVOLUTION % ULONG_MOD) / s.live.fullPressSteps ≠ 0) :
    (∃ a b, ctrl_inspiratory_flow P s value = some a ∧
      live_volume_per_revolution P { s with ctrl := { s.ctrl with inspiratoryFlow := value } }
        = some b ∧
      a.live.inspiratoryRpm = b.live.inspiratoryRpm ∧ (Consistent P s → a = b)) ∧
    (∃ a b, ctrl_expiratory_flow P s value = some a ∧
      live_volume_per_revolution P { s with ctrl := { s.ctrl with expiratoryFlow := value } }
        = some b ∧
      a.live.expiratoryRpm = b.live.expiratoryRpm ∧ (Consistent P s → a = b)) := by
  constructor
  · obtain ⟨a, ha⟩ := Option.isSome_iff_exists.mp
      (show (ctrl_inspiratory_flow P s value).isSome = true by
        simp [ctrl_inspiratory_flow, volume_per_revolution, rpm, hs, hv])
    obtain ⟨b, hb⟩ := Option.isSome_iff_exists.mp
      (live_volume_per_revolution_defined P
        { s with ctrl := { s.ctrl with inspiratoryFlow := value } } hs hv)
    refine ⟨a, b, ha, hb, ?_, ?_⟩
    · obtain ⟨v, hv1, -, eb⟩ := live_volume_per_revolution_some hb
      obtain ⟨-, rfl⟩ := volume_per_revolution_some hv1
      rw [ctrl_inspiratory_flow_some ha, eb]
    · rintro ⟨h1, -, -, -, -, h6, -⟩
      obtain ⟨v, hv1, -, eb⟩ := live_volume_per_revolution_some hb
      obtain ⟨-, rfl⟩ := volume_per_revolution_some hv1
      rw [ctrl_inspiratory_flow_some ha, eb]
      simp only [rpm_of, volume_per_revolution_of, ← h1] at h6
      simp only [← h6]
  · obtain ⟨a, ha⟩ := Option.isSome_iff_exists.mp
      (show (ctrl_expiratory_flow P s value).isSome = true by
        simp [ctrl_expiratory_flow, volume_per_revolution, rpm, hs, hv])
    obtain ⟨b, hb⟩ := Option.isSome_iff_exists.mp
      (live_volume_per_revolution_defined P
        { s with ctrl := { s.ctrl with expiratoryFlow := value } } hs hv)
    refine ⟨a, b, ha, hb, ?_, ?_⟩
    · obtain ⟨v, hv1, -, eb⟩ := live_volume_per_revolution_some hb
      obtain ⟨-, rfl⟩ := volume_per_revolution_some hv1
      rw [ctrl_expiratory_flow_some ha, eb]
    · rintro ⟨h1, -, -, -, h5, -, -⟩
      obtain ⟨v, hv1, -, eb⟩ := live_volume_per_revolution_some hb
      obtain ⟨-, rfl⟩ := volume_per_revolution_some hv1
      rw [ctrl_expiratory_flow_some ha, eb]
      simp only [rpm_of, volume_per_revolution_of, ← h1] at h5
      simp only [← h5]

/-- Witness for C16: `ctrl_inspiratory_flow(40)` after a factory reset. -/
theorem flow_setters_agree_witness :
    factory_state.live.fullPressSteps ≠ 0 ∧
    (factory_state.ctrl.fullPressVolume * avr_build.STEPS_PER_REVOLUTION % ULONG_MOD) /
      factory_state.live.fullPressSteps ≠ 0 ∧
    Consistent avr_build factory_state ∧
    ∃ a b, ctrl_inspiratory_flow avr_build factory_state 40 = some a ∧
      live_volume_per_revolution avr_build
        { factory_state with ctrl := { factory_state.ctrl with inspiratoryFlow := 40 } }
        = some b ∧
      a = b :=
  ⟨by decide, by decide, factory_state_consistent,
   (flow_setters_agree avr_build factory_state 40 (by decide) (by decide)).1.imp
     fun _ h => h.imp fun _ h => ⟨h.1, h.2.1, h.2.2.2 factory_state_consistent⟩⟩

/-! ## Travel of a tidal press -/

theorem scaled_steps_le (f v w : Nat) (_ : w ≠ 0) (hv : v ≤ w) : f * v / w ≤ f := by
  apply Nat.div_le_of_le_mul
  rw [Nat.mul_comm w f]
  exact Nat.mul_le_mul_left f hv

theorem tidal_steps_exact (s : State) (volume : Nat)
    (hf : s.live.fullPressSteps < 65536) (hw : s.ctrl.fullPressVolume ≠ 0)
    (hb : s.ctrl.fullPressVolume < 65536) (hv : volume ≤ s.ctrl.fullPressVolume) :
    tidal_steps s volume = some (s.live.fullPressSteps * volume / s.ctrl.fullPressVolume) := by
  have hp : s.live.fullPressSteps * volume < ULONG_MOD := by
    have h1 : s.live.fullPressSteps * volume ≤ 65535 * 65535 :=
      Nat.mul_le_mul (by omega) (by omega)
    simp only [ULONG_MOD]
    omega
  have hq := scaled_steps_le s.live.fullPressSteps volume s.ctrl.fullPressVolume hw hv
  have hr : s.live.fullPressSteps * volume / s.ctrl.fullPressVolume < UINT_MOD := by
    simp only [UINT_MOD]
    omega
  unfold tidal_steps
  rw [if_neg hw, Nat.mod_eq_of_lt hp, Nat.mod_eq_of_lt hr]

theorem tidal_steps_of_exact (P : Options) (c : ctrl_t) (volume : Nat)
    (hw : c.fullPressVolume ≠ 0) (hv : volume ≤ c.fullPressVolume) (hb : volume < 65536) :
    tidal_steps_of P c volume = full_press_steps_of P c * volume / c.fullPressVolume := by
  have hf : full_press_steps_of P c < 65536 := by
    unfold full_press_steps_of
    omega
  have hp : full_press_steps_of P c * volume < ULONG_MOD := by
    have h1 : full_press_steps_of P c * volume ≤ 65535 * 65535 :=
      Nat.mul_le_mul (by omega) (by omega)
    simp only [ULONG_MOD]
    omega
  have hq := scaled_steps_le (full_press_steps_of P c) volume c.fullPressVolume hw hv
  have hr : full_press_steps_of P c * volume / c.fullPressVolume < UINT_MOD := by
    simp only [UINT_MOD]
    omega
  unfold tidal_steps_of
  rw [Nat.mod_eq_of_lt hp, Nat.mod_eq_of_lt hr]

/-- C17. For a 16-bit `fullPressSteps`, a nonzero 16-bit `fullPressVolume` and every
`volume ≤ fullPressVolume`, `tidal_steps(volume)` is exactly
`⌊fullPressSteps × volume / fullPressVolume⌋` (neither the 32-bit product nor the 16-bit
result loses anything) and is at most `fullPressSteps`; it is monotone in `volume` over
that range; and in a consistent state with `fullPressVolume ≥ 600`,
`steps400 ≤ steps600 ≤ fullPressSteps`. -/
theorem tidal_steps_within_full_press (P : Options) (s : State) :
    (s.live.fullPressSteps < 65536 → s.ctrl.fullPressVolume ≠ 0 →
      s.ctrl.fullPressVolume < 65536 →
      (∀ volume, volume ≤ s.ctrl.fullPressVolume →
        tidal_steps s volume =
          some (s.live.fullPressSteps * volume / s.ctrl.fullPressVolume) ∧
        s.live.fullPressSteps * volume / s.ctrl.fullPressVolume ≤ s.live.fullPressSteps) ∧
      (∀ v1 v2, v1 ≤ v2 → v2 ≤ s.ctrl.fullPressVolume →
        ∃ t1 t2, tidal_steps s v1 = some t1 ∧ tidal_steps s v2 = some t2 ∧ t1 ≤ t2)) ∧
    (Consistent P s → 600 ≤ s.ctrl.fullPressVolume →
      s.live.steps400 ≤ s.live.steps600 ∧ s.live.steps600 ≤ s.live.fullPressSteps) := by
  constructor
  · intro hf hw hb
    constructor
    · intro volume hv
      exact ⟨tidal_steps_exact s volume hf hw hb hv,
        scaled_steps_le s.live.fullPressSteps volume s.ctrl.fullPressVolume hw hv⟩
    · intro v1 v2 h12 h2
      exact ⟨_, _, tidal_steps_exact s v1 hf hw hb (Nat.le_trans h12 h2),
        tidal_steps_exact s v2 hf hw hb h2,
        Nat.div_le_div_right (Nat.mul_le_mul_left _ h12)⟩
  · rintro ⟨h1, -, h3, h4, -⟩ hw
    have hw0 : s.ctrl.fullPressVolume ≠ 0 := by omega
    have e4 := tidal_steps_of_exact P s.ctrl 400 hw0 (by omega) (by omega)
    have e6 := tidal_steps_of_exact P s.ctrl 600 hw0 hw (by omega)
    rw [h1, h3, h4, e4, e6]
    exact ⟨Nat.div_le_div_right (Nat.mul_le_mul_left _ (by omega)),
      scaled_steps_le _ 600 _ hw0 hw⟩

/-- Witness for C17: after a factory reset (1000 steps, 850 ml) the volume 450 gives 529
steps, and `steps400 ≤ steps600 ≤ fullPressSteps`. -/
theorem tidal_steps_within_full_press_witness :
    factory_state.live.fullPressSteps < 65536 ∧ factory_state.ctrl.fullPressVolume ≠ 0 ∧
    factory_state.ctrl.fullPressVolume < 65536 ∧ 450 ≤ factory_state.ctrl.fullPressVolume ∧
    Consistent avr_build factory_state ∧ 600 ≤ factory_state.ctrl.fullPressVolume ∧
    tidal_steps factory_state 450 =
      some (factory_state.live.fullPressSteps * 450 / factory_state.ctrl.fullPressVolume) ∧
    factory_state.live.steps400 ≤ factory_state.live.steps600 ∧
    factory_state.live.steps600 ≤ factory_state.live.fullPressSteps :=
  ⟨by decide, by decide, by decide, by decide, factory_state_consistent, by decide,
   ((((tidal_steps_within_full_press avr_build factory_state).1 (by decide) (by decide)
      (by decide)).1) 450 (by decide)).1,
   (tidal_steps_within_full_press avr_build factory_state).2 factory_state_consistent
     (by decide)⟩

/-! ## Alarm history invariant -/

theorem call_keeps_alarms {P : Options} {k : setter_t} {s s' : State} {value : Nat}
    (h : call P k s value = some s') : s'.alarm = s.alarm ∧ s'.events = s.events := by
  cases k <;> simp only [call] at h
  · rw [ctrl_start_position_some h]
    exact ⟨rfl, rfl⟩
  · rw [ctrl_full_press_volume_some h]
    exact ⟨rfl, rfl⟩
  · rw [ctrl_tidal_volume_some h]
    exact ⟨rfl, rfl⟩
  · rw [ctrl_respiratory_rate_some h]
    exact ⟨rfl, rfl⟩
  · rw [ctrl_respiratory_ratio_some h]
    exact ⟨rfl, rfl⟩
  · cases h
    exact ⟨rfl, rfl⟩
  · rw [ctrl_inspiratory_flow_some h]
    exact ⟨rfl, rfl⟩
  · rw [ctrl_expiratory_flow_some h]
    exact ⟨rfl, rfl⟩
  · cases h
    exact ⟨rfl, rfl⟩

theorem alarm_reachable_slots (P : Options) (s : State) (h : AlarmReachable P s) :
    s.events.length ≤ 5 ∧
    (0 < s.events.length → s.events.list0 = s.alarm) ∧
    (s.events.length = 0 → s.alarm = P.NO_ALARM) ∧
    (1 < s.events.length → s.events.list0 ≠ s.events.list1) ∧
    (2 < s.events.length → s.events.list1 ≠ s.events.list2) ∧
    (3 < s.events.length → s.events.list2 ≠ s.events.list3) ∧
    (4 < s.events.length → s.events.list3 ≠ s.events.list4) := by
  induction h with
  | setup pre s h =>
    rw [ctrl_setup_some h]
    simp [events_zero]
  | raise a s _ ih =>
    by_cases ha : s.alarm = a
    · rw [alarm_event_same s a ha]
      exact ih
    · obtain ⟨i1, i2, -, i4, i5, i6, -⟩ := ih
      have hm1 : min (s.events.length + 1) 5 ≤ 5 := Nat.min_le_right _ _
      have hm2 : min (s.events.length + 1) 5 ≤ s.events.length + 1 := Nat.min_le_left _ _
      have hm3 : 0 < min (s.events.length + 1) 5 := Nat.lt_min.mpr ⟨by omega, by omega⟩
      rw [alarm_event_other s a ha, show MAX_EVENTS = 5 from rfl]
      generalize min (s.events.length + 1) 5 = m at hm1 hm2 hm3 ⊢
      show m ≤ 5 ∧ (0 < m → a = a) ∧ (m = 0 → a = P.NO_ALARM) ∧
        (1 < m → a ≠ s.events.list0) ∧ (2 < m → s.events.list0 ≠ s.events.list1) ∧
        (3 < m → s.events.list1 ≠ s.events.list2) ∧ (4 < m → s.events.list2 ≠ s.events.list3)
      refine ⟨by omega, fun _ => rfl, fun h0 => by omega, fun h1 => ?_, fun h2 => ?_,
        fun h3 => ?_, fun h4 => ?_⟩
      · intro e
        exact ha ((i2 (by omega)).symm.trans e.symm)
      · exact i4 (by omega)
      · exact i5 (by omega)
      · exact i6 (by omega)
  | set k value s s' _ hcall ih =>
    obtain ⟨e1, e2⟩ := call_keeps_alarms hcall
    rw [e1, e2]
    exact ih
  | reset s s' _ hr ih =>
    rw [factory_reset_some hr]
    exact ih

/-- C18. In every state reached from `ctrl_setup` by calls of `alarm_event`, interleaved
in any way with setter calls and factory resets: the counter is at most `MAX_EVENTS`; when
the counter is positive, slot 0 of the history is the current alarm; when it is zero, the
current alarm is `NO_ALARM`; and no two adjacent recorded entries are equal. -/
theorem alarm_history_invariant (P : Options) (s : State) (h : AlarmReachable P s) :
    s.events.length ≤ MAX_EVENTS ∧
    (0 < s.events.length → s.events.list[0]? = some s.alarm) ∧
    (s.events.length = 0 → s.alarm = P.NO_ALARM) ∧
    (∀ i, i + 1 < s.events.length → s.events.list[i]? ≠ s.events.list[i + 1]?) := by
  obtain ⟨i1, i2, i3, i4, i5, i6, i7⟩ := alarm_reachable_slots P s h
  refine ⟨i1, fun h0 => ?_, i3, fun i hi => ?_⟩
  · rw [← i2 h0]
    rfl
  · rcases i with _ | _ | _ | _ | i
    · simpa [events_t.list] using i4 (by omega)
    · simpa [events_t.list] using i5 (by omega)
    · simpa [events_t.list] using i6 (by omega)
    · simpa [events_t.list] using i7 (by omega)
    · omega

theorem alarmed_state_reachable : AlarmReachable avr_build alarmed_state :=
  .raise 3 factory_state (.setup factory_state factory_state setup_of_factory_state)

/-- Witness for C18: the state after start-up and `alarm_event(3)`, `alarm_event(0)`. -/
theorem alarm_history_invariant_witness :
    AlarmReachable avr_build (alarm_event alarmed_state 0) ∧
    (alarm_event alarmed_state 0).events.length = 2 ∧
    (alarm_event alarmed_state 0).events.list[0]? = some (alarm_event alarmed_state 0).alarm ∧
    (alarm_event alarmed_state 0).events.list[0]? ≠ (alarm_event alarmed_state 0).events.list[1]? :=
  ⟨.raise 0 alarmed_state alarmed_state_reachable, by decide,
   (alarm_history_invariant avr_build (alarm_event alarmed_state 0)
      (.raise 0 alarmed_state alarmed_state_reachable)).2.1 (by decide),
   (alarm_history_invariant avr_build (alarm_event alarmed_state 0)
      (.raise 0 alarmed_state alarmed_state_reachable)).2.2.2 0 (by decide)⟩

end Control
